import Mathlib

/-!
# Greenworks Steam networking bindings

A shallow embedding of the three binding files

* `src/api/steam_api_networking_messages.cc`
* `src/api/steam_api_networking_sockets.cc`
* `src/api/steam_api_networking_utils.cc`

Every `NAN_METHOD` becomes a function from the host argument list and the
state of the Steam SDK to an `Outcome`: what the method hands back to the host
(a value, or a raised bad-argument failure), the SDK interactions it performed
in order, and the SDK state afterwards.  The SDK itself is a record of
state-passing functions, one per interface method the bindings use.
-/

namespace greenworks

/-! ## Host values -/

/-- A C `float` or `double`: a rational when finite, otherwise one of the
special values (NaN, the infinities, negative zero).  The narrowing of a
`double` to a `float` is `Lib.toFloat`. -/
inductive CFloat where
  | finite (q : ℚ)
  | special (tag : Nat)
  deriving DecidableEq

/-- Values of the scripting host.  A number is a rational (every finite double
is one); `otherNumber` stands for the doubles that are not (NaN, the
infinities, negative zero). -/
inductive JsValue where
  | undefined
  | null
  | boolean (b : Bool)
  | number (q : ℚ)
  | otherNumber (tag : Nat)
  | string (s : String)
  | buffer (bytes : List Nat)
  | object (fields : List (String × JsValue))
  | array (items : List JsValue)

namespace JsValue

/-- Embeds `v8::Value::IsString`. -/
def IsString : JsValue → Bool
  | string _ => true
  | _ => false

/-- Embeds `v8::Value::IsNumber`. -/
def IsNumber : JsValue → Bool
  | number _ => true
  | otherNumber _ => true
  | _ => false

/-- Embeds `v8::Value::IsBoolean`. -/
def IsBoolean : JsValue → Bool
  | boolean _ => true
  | _ => false

/-- Embeds `v8::Value::IsInt32`: a number with an integral value in `[-2^31, 2^31)`. -/
def IsInt32 : JsValue → Bool
  | number q => q.den == 1 && decide (-2147483648 ≤ q.num) && decide (q.num ≤ 2147483647)
  | _ => false

/-- Embeds `v8::Value::IsUint32`: a number with an integral value in `[0, 2^32)`. -/
def IsUint32 : JsValue → Bool
  | number q => q.den == 1 && decide (0 ≤ q.num) && decide (q.num ≤ 4294967295)
  | _ => false

/-- Embeds `v8::Value::IsObject`. -/
def IsObject : JsValue → Bool
  | buffer _ => true
  | object _ => true
  | array _ => true
  | _ => false

/-- Embeds `node::Buffer::HasInstance`. -/
def HasInstance : JsValue → Bool
  | buffer _ => true
  | _ => false

/-- Embeds `node::Buffer::Data`: the bytes behind a buffer object. -/
def Data : JsValue → List Nat
  | buffer bytes => bytes
  | _ => []

/-- Embeds `node::Buffer::Length`. -/
def Length : JsValue → Nat
  | buffer bytes => bytes.length
  | _ => 0

/-- The integer part of a rational, rounding toward zero. -/
def truncate (q : ℚ) : Int := Int.tdiv q.num q.den

/-- Embeds `v8::Value::Uint32Value` on a number: truncate, then reduce modulo `2^32`.
The bindings call it only behind an `IsUint32` guard. -/
def Uint32Value : JsValue → Nat
  | number q => (truncate q % 4294967296).toNat
  | _ => 0

/-- Embeds `v8::Value::Int32Value` on a number: truncate, reduce modulo `2^32` and
read the result as a signed 32-bit integer.  The bindings call it only behind
an `IsInt32` guard. -/
def Int32Value : JsValue → Int
  | number q =>
      let m := truncate q % 4294967296
      if m < 2147483648 then m else m - 4294967296
  | _ => 0

/-- Embeds `v8::Value::NumberValue`, on a number. -/
def NumberValue : JsValue → CFloat
  | number q => .finite q
  | otherNumber tag => .special tag
  | _ => .special 0

/-- Embeds `v8::Value::BooleanValue`, on a boolean. -/
def BooleanValue : JsValue → Bool
  | boolean b => b
  | _ => false

/-- Embeds `*(Nan::Utf8String(v))` read into a `std::string`: the characters up to
the first NUL. -/
def Utf8String : JsValue → String
  | string s => String.mk (s.data.takeWhile (fun c => c != Char.ofNat 0))
  | _ => ""

/-- The host number for a C `int`, `uint32_t` or other integer (`Nan::New`). -/
def ofInt (i : Int) : JsValue := number (i : ℚ)

/-- The host number for a C `float` or `double` (`Nan::New`). -/
def ofFloat : CFloat → JsValue
  | .finite q => number q
  | .special tag => otherNumber tag

/-- The value of the property `name` of a host object, when it has one. -/
def getField (name : String) : JsValue → Option JsValue
  | object fields => (fields.find? (fun p => p.1 == name)).map (fun p => p.2)
  | _ => none

end JsValue

/-- Embeds `info[i]`: the i-th argument of the call, `undefined` past the end. -/
def arg (info : List JsValue) (i : Nat) : JsValue := info.getD i JsValue.undefined

/-! ## SDK value types -/

/-- Type `SteamNetworkingIPAddr`: sixteen address bytes and a 16-bit port. -/
structure SteamNetworkingIPAddr where
  m_ipv6 : List Nat
  m_port : Nat
  deriving DecidableEq

/-- Embeds `SteamNetworkingIPAddr::Clear`. -/
def SteamNetworkingIPAddr.Clear : SteamNetworkingIPAddr :=
  { m_ipv6 := List.replicate 16 0, m_port := 0 }

/-- Assigning a C `int` to the `uint16` field `m_port`. -/
def SteamNetworkingIPAddr.setPort (a : SteamNetworkingIPAddr) (port : Int) :
    SteamNetworkingIPAddr :=
  { a with m_port := (port % 65536).toNat }

/-- Type `SteamNetworkingIdentity`: either a Steam ID or some other kind of
identity (IP address, generic string, invalid). -/
inductive SteamNetworkingIdentity where
  | steamID (id : Nat)
  | other (kind : Nat)
  deriving DecidableEq

/-- Embeds `SteamNetworkingIdentity::SetSteamID`. -/
def SteamNetworkingIdentity.SetSteamID (steam_id : Nat) : SteamNetworkingIdentity :=
  .steamID steam_id

/-- Embeds `SteamNetworkingIdentity::GetSteamID(CSteamID*)`: the Steam ID when the
identity is one. -/
def SteamNetworkingIdentity.GetSteamID : SteamNetworkingIdentity → Option Nat
  | .steamID id => some id
  | .other _ => none

/-- The `const char* pszDebug` handed to the SDK by `CloseConnection`: the null
pointer, or a pointer into a buffer that held `was` and has been destroyed
before the SDK reads it. -/
inductive CharPtr where
  | null
  | dangling (was : String)
  deriving DecidableEq

/-- Type `SteamNetworkingMessage_t`, the fields the bindings read. -/
structure SteamNetworkingMessage_t where
  m_pData : List Nat
  m_cbSize : Int
  m_conn : Nat
  m_identityPeer : SteamNetworkingIdentity
  m_nChannel : Int

/-- Type `SteamNetConnectionInfo_t`, the fields the bindings read. -/
structure SteamNetConnectionInfo_t where
  m_eState : Int
  m_eEndReason : Int
  m_identityRemote : SteamNetworkingIdentity
  m_szConnectionDescription : String

/-- Type `SteamNetworkingQuickConnectionStatus`. -/
structure SteamNetworkingQuickConnectionStatus where
  m_eState : Int
  m_nPing : Int
  m_flConnectionQualityLocal : CFloat
  m_flConnectionQualityRemote : CFloat
  m_flOutPacketsPerSec : CFloat
  m_flOutBytesPerSec : CFloat
  m_flInPacketsPerSec : CFloat
  m_flInBytesPerSec : CFloat
  m_nSendRateBytesPerSecond : Int
  m_cbPendingUnreliable : Int
  m_cbPendingReliable : Int
  m_cbSentUnackedReliable : Int

/-- Constant `k_EResultOK` of the SDK's `EResult` enumeration (SDK header value). -/
def k_EResultOK : Int := 1

/-- Constant `k_nSteamNetworkingSend_Reliable` (SDK header value). -/
def k_nSteamNetworkingSend_Reliable : Int := 8

/-- Constant `k_ESteamNetworkingConnectionState_None` (SDK header value). -/
def k_ESteamNetworkingConnectionState_None : Int := 0

/-- Modelled from the spec: the SDK constant `k_HSteamListenSocket_Invalid`
(declared in the SDK headers, not in this repository) is the sentinel
"invalid" handle value, zero. -/
def k_HSteamListenSocket_Invalid : Nat := 0

/-- Modelled from the spec: the SDK constant `k_HSteamNetConnection_Invalid`
(declared in the SDK headers, not in this repository) is the sentinel
"invalid" handle value, zero. -/
def k_HSteamNetConnection_Invalid : Nat := 0

/-! ## The SDK and the helpers outside these files -/

/-- Pure helpers the bindings call that are defined outside the three files:
`utils::strToUint64` of `greenworks_utils`, and the value-type methods
`CSteamID::IsValid` and `SteamNetworkingIPAddr::ParseString` of the SDK
headers (`ParseString` yields the parsed address, or nothing when it returns
false).  `toDouble` is the rounding of a real number to a `double` that the
C++ arithmetic performs, both in `static_cast<double>` and after a
floating-point division; `toFloat` is the narrowing of a `double` to a
`float` that `static_cast<float>` performs. -/
structure Lib where
  strToUint64 : String → Nat
  IsValid : Nat → Bool
  ParseString : String → Option SteamNetworkingIPAddr
  toDouble : ℚ → ℚ
  toFloat : CFloat → CFloat

/-- Embeds `CSteamID steam_id(utils::strToUint64(steam_id_str))`: the 64-bit value
read from the first argument. -/
def Lib.steamIdOf (lib : Lib) (v : JsValue) : Nat :=
  lib.strToUint64 v.Utf8String % 18446744073709551616

/-- The Steam SDK: for each interface method the bindings call, its result
and the next SDK state, as functions of the current state and the arguments.
A message-pointer array or id list filled by the SDK is a function from the
index to the entry. -/
structure Sdk (σ : Type) where
  SendMessageToUser : σ → SteamNetworkingIdentity → List Nat → Nat → Int → Int → Int × σ
  ReceiveMessagesOnChannel : σ → Int → Int → ((Nat → SteamNetworkingMessage_t) × Int) × σ
  AcceptSessionWithUser : σ → SteamNetworkingIdentity → Bool × σ
  CloseSessionWithUser : σ → SteamNetworkingIdentity → Bool × σ
  CloseChannelWithUser : σ → SteamNetworkingIdentity → Int → Bool × σ
  GetSessionConnectionInfo : σ → SteamNetworkingIdentity →
    (Int × SteamNetConnectionInfo_t × SteamNetworkingQuickConnectionStatus) × σ
  CreateListenSocketIP : σ → SteamNetworkingIPAddr → Int → Nat × σ
  ConnectByIPAddress : σ → SteamNetworkingIPAddr → Int → Nat × σ
  ConnectP2P : σ → SteamNetworkingIdentity → Int → Int → Nat × σ
  AcceptConnection : σ → Nat → Int × σ
  CloseConnection : σ → Nat → Int → CharPtr → Bool → Bool × σ
  CloseListenSocket : σ → Nat → Bool × σ
  SendMessageToConnection : σ → Nat → List Nat → Nat → Int → Int × σ
  ReceiveMessagesOnConnection : σ → Nat → Int → ((Nat → SteamNetworkingMessage_t) × Int) × σ
  FlushMessagesOnConnection : σ → Nat → Int × σ
  GetConnectionInfo : σ → Nat → (Bool × SteamNetConnectionInfo_t) × σ
  GetQuickConnectionStatus : σ → Nat → (Bool × SteamNetworkingQuickConnectionStatus) × σ
  GetDetailedConnectionStatus : σ → Nat → Nat → (Int × String) × σ
  RunCallbacks : σ → σ
  GetLocalTimestamp : σ → Int × σ
  SetGlobalConfigValueInt32 : σ → Int → Int → Bool × σ
  SetGlobalConfigValueFloat : σ → Int → CFloat → Bool × σ
  SetGlobalConfigValueString : σ → Int → String → Bool × σ
  SetConnectionConfigValueInt32 : σ → Nat → Int → Int → Bool × σ
  SetConnectionConfigValueFloat : σ → Nat → Int → CFloat → Bool × σ
  SetConnectionConfigValueString : σ → Nat → Int → String → Bool × σ
  SetDebugOutputFunction : σ → Int → σ
  IsFakeIPv4 : σ → Nat → Bool × σ
  GetIPv4FakeIPType : σ → Nat → Int × σ
  GetRealIdentityForFakeIP : σ → SteamNetworkingIPAddr → (Int × SteamNetworkingIdentity) × σ
  CheckPingDataUpToDate : σ → CFloat → Bool × σ
  GetPingToDataCenter : σ → Nat → (Int × Nat) × σ
  GetDirectPingToPOP : σ → Nat → Int × σ
  GetPOPCount : σ → Int × σ
  GetPOPList : σ → Int → ((Nat → Nat) × Int) × σ

/-- A call on one of the SDK interfaces, with the arguments passed. -/
inductive SdkCall where
  | SendMessageToUser (identity : SteamNetworkingIdentity) (pData : List Nat) (cbData : Nat)
      (nSendFlags nRemoteVirtualPort : Int)
  | ReceiveMessagesOnChannel (nLocalVirtualPort nMaxMessages : Int)
  | AcceptSessionWithUser (identity : SteamNetworkingIdentity)
  | CloseSessionWithUser (identity : SteamNetworkingIdentity)
  | CloseChannelWithUser (identity : SteamNetworkingIdentity) (nLocalVirtualPort : Int)
  | GetSessionConnectionInfo (identity : SteamNetworkingIdentity)
  | CreateListenSocketIP (localAddress : SteamNetworkingIPAddr) (nOptions : Int)
  | ConnectByIPAddress (address : SteamNetworkingIPAddr) (nOptions : Int)
  | ConnectP2P (identity : SteamNetworkingIdentity) (nVirtualPort nOptions : Int)
  | AcceptConnection (hConn : Nat)
  | CloseConnection (hConn : Nat) (nReason : Int) (pszDebug : CharPtr)
      (bEnableLinger : Bool)
  | CloseListenSocket (hSocket : Nat)
  | SendMessageToConnection (hConn : Nat) (pData : List Nat) (cbData : Nat) (nSendFlags : Int)
  | ReceiveMessagesOnConnection (hConn : Nat) (nMaxMessages : Int)
  | FlushMessagesOnConnection (hConn : Nat)
  | GetConnectionInfo (hConn : Nat)
  | GetQuickConnectionStatus (hConn : Nat)
  | GetDetailedConnectionStatus (hConn cbBuf : Nat)
  | RunCallbacks
  | GetLocalTimestamp
  | SetGlobalConfigValueInt32 (eValue val : Int)
  | SetGlobalConfigValueFloat (eValue : Int) (val : CFloat)
  | SetGlobalConfigValueString (eValue : Int) (val : String)
  | SetConnectionConfigValueInt32 (hConn : Nat) (eValue val : Int)
  | SetConnectionConfigValueFloat (hConn : Nat) (eValue : Int) (val : CFloat)
  | SetConnectionConfigValueString (hConn : Nat) (eValue : Int) (val : String)
  | SetDebugOutputFunction (eDetailLevel : Int)
  | IsFakeIPv4 (nIPv4 : Nat)
  | GetIPv4FakeIPType (nIPv4 : Nat)
  | GetRealIdentityForFakeIP (fakeIP : SteamNetworkingIPAddr)
  | CheckPingDataUpToDate (maxAgeSeconds : CFloat)
  | GetPingToDataCenter (popID : Nat)
  | GetDirectPingToPOP (popID : Nat)
  | GetPOPCount
  | GetPOPList (count : Int)
  deriving DecidableEq

/-- What a binding does besides computing its result, in program order: a
call on an SDK interface, the allocation of an array of `n` entries with
`new[]`, the copy of the payload of the i-th received message into a host
buffer, and the release of the i-th received message. -/
inductive Event where
  | call (c : SdkCall)
  | newArray (n : Int)
  | copyBuffer (i : Nat)
  | release (i : Nat)
  deriving DecidableEq

/-- How a binding ends: it sets a return value, or raises the bad-argument
failure. -/
inductive Completion where
  | returned (v : JsValue)
  | badArgs (msg : String)

/-- The observable outcome of one binding call. -/
structure Outcome (σ : Type) where
  completion : Completion
  trace : List Event
  state : σ

/-- Modelled from the spec: the macro `THROW_BAD_ARGS` (of `greenworks_utils.h`,
not among the three files) raises the bad-argument failure and terminates the
call, before anything else happens. -/
def THROW_BAD_ARGS {σ : Type} (st : σ) (msg : String) : Outcome σ :=
  { completion := .badArgs msg, trace := [], state := st }

/-- The SDK interface calls in a trace. -/
def sdkCalls : List Event → List SdkCall
  | [] => []
  | .call c :: es => c :: sdkCalls es
  | _ :: es => sdkCalls es

/-- The binding raised the bad-argument failure. -/
def Outcome.raisedBadArgs {σ : Type} (o : Outcome σ) : Bool :=
  match o.completion with
  | .badArgs _ => true
  | .returned _ => false

/-- The elements of the host array a binding returned (none when it returned
something else or raised). -/
def Outcome.returnedItems {σ : Type} (o : Outcome σ) : List JsValue :=
  match o.completion with
  | .returned (.array items) => items
  | _ => []

namespace api

open JsValue

variable {σ : Type}

/-! ## `steam_api_networking_messages.cc` -/

/-- The send-flags argument of the two send bindings (messages.cc:46-49,
sockets.cc:184-187): `nSendFlags`, from the third argument. -/
def nSendFlags (info : List JsValue) : Int :=
  if info.length ≥ 3 && (arg info 2).IsInt32 then (arg info 2).Int32Value
  else k_nSteamNetworkingSend_Reliable

/-- The virtual-port argument of `SendMessageToUser` (messages.cc:51-54):
`nRemoteVirtualPort`, from the fourth argument. -/
def nRemoteVirtualPort (info : List JsValue) : Int :=
  if info.length ≥ 4 && (arg info 3).IsInt32 then (arg info 3).Int32Value else 0

/-- Binding `SendMessageToUser` (messages.cc:22-60). -/
def SendMessageToUser (lib : Lib) (sdk : Sdk σ) (st : σ) (info : List JsValue) : Outcome σ :=
  if info.length < 2 || !(arg info 0).IsString then
    THROW_BAD_ARGS st "Bad arguments: Steam ID and data buffer required"
  else
    let steam_id := lib.steamIdOf (arg info 0)
    if !lib.IsValid steam_id then
      THROW_BAD_ARGS st "Steam ID is invalid"
    else
      let identity := SteamNetworkingIdentity.SetSteamID steam_id
      if !(arg info 1).IsObject || !(arg info 1).HasInstance then
        THROW_BAD_ARGS st "Second argument must be a buffer"
      else
        let pData := (arg info 1).Data
        let cbData := (arg info 1).Length % 4294967296
        let nSendFlags := nSendFlags info
        let nRemoteVirtualPort := nRemoteVirtualPort info
        let r := sdk.SendMessageToUser st identity pData cbData nSendFlags nRemoteVirtualPort
        { completion := .returned (.boolean (r.1 == k_EResultOK)),
          trace := [.call (.SendMessageToUser identity pData cbData nSendFlags nRemoteVirtualPort)],
          state := r.2 }

/-- The message-count argument of the two receive bindings (messages.cc:72-78,
sockets.cc:206-212): `nMaxMessages`, from the second argument. -/
def nMaxMessages (info : List JsValue) : Int :=
  if info.length ≥ 2 && (arg info 1).IsInt32 then
    let n := (arg info 1).Int32Value
    if n < 1 || n > 256 then 32 else n
  else 32

/-- Embeds `Nan::CopyBuffer(pMsg->m_pData, pMsg->m_cbSize)`: a fresh host buffer with
the first `m_cbSize` bytes at `m_pData` (the size travels as a `uint32_t`). -/
def CopyBuffer (pMsg : SteamNetworkingMessage_t) : JsValue :=
  .buffer (pMsg.m_pData.take (pMsg.m_cbSize % 4294967296).toNat)

/-- The host object built for one message received on a channel
(messages.cc:91-106). -/
def channelMessageObj (pMsg : SteamNetworkingMessage_t) : JsValue :=
  .object ([("data", CopyBuffer pMsg), ("size", ofInt pMsg.m_cbSize),
      ("channel", ofInt pMsg.m_nChannel)] ++
    match pMsg.m_identityPeer.GetSteamID with
    | some senderSteamID => [("steamIDRemote", .string (toString senderSteamID))]
    | none => [])

/-- The host object built for one message received on a connection
(sockets.cc:225-235). -/
def connectionMessageObj (pMsg : SteamNetworkingMessage_t) : JsValue :=
  .object [("data", CopyBuffer pMsg), ("size", ofInt pMsg.m_cbSize),
    ("connection", ofInt ((pMsg.m_conn % 4294967296 : Nat) : Int)),
    ("channel", ofInt pMsg.m_nChannel)]

/-- The loop `for (int i = 0; i < numMessages; i++)` of the receive bindings:
the host array (`Nan::New<v8::Array>(numMessages)` filled index by index; a
negative length gives the empty array). -/
def messageArray (mkObj : SteamNetworkingMessage_t → JsValue)
    (ppOutMessages : Nat → SteamNetworkingMessage_t) (numMessages : Int) : JsValue :=
  .array ((List.range numMessages.toNat).map (fun i => mkObj (ppOutMessages i)))

/-- The events of the receive loop: message `i` is copied, then released. -/
def messageLoopEvents (numMessages : Int) : List Event :=
  (List.range numMessages.toNat).flatMap (fun i => [Event.copyBuffer i, Event.release i])

/-- Binding `ReceiveMessagesOnChannel` (messages.cc:64-116). -/
def ReceiveMessagesOnChannel (sdk : Sdk σ) (st : σ) (info : List JsValue) : Outcome σ :=
  let nLocalVirtualPort :=
    if info.length ≥ 1 && (arg info 0).IsInt32 then (arg info 0).Int32Value else 0
  let nMax := nMaxMessages info
  let r := sdk.ReceiveMessagesOnChannel st nLocalVirtualPort nMax
  { completion := .returned (messageArray channelMessageObj r.1.1 r.1.2),
    trace := [.newArray nMax, .call (.ReceiveMessagesOnChannel nLocalVirtualPort nMax)] ++
      messageLoopEvents r.1.2,
    state := r.2 }

/-- Binding `AcceptSessionWithUser` (messages.cc:120-137). -/
def AcceptSessionWithUser (lib : Lib) (sdk : Sdk σ) (st : σ) (info : List JsValue) :
    Outcome σ :=
  if info.length < 1 || !(arg info 0).IsString then
    THROW_BAD_ARGS st "Bad arguments: Steam ID required"
  else
    let steam_id := lib.steamIdOf (arg info 0)
    if !lib.IsValid steam_id then
      THROW_BAD_ARGS st "Steam ID is invalid"
    else
      let identity := SteamNetworkingIdentity.SetSteamID steam_id
      let r := sdk.AcceptSessionWithUser st identity
      { completion := .returned (.boolean r.1),
        trace := [.call (.AcceptSessionWithUser identity)],
        state := r.2 }

/-- Binding `CloseSessionWithUser` (messages.cc:141-158). -/
def CloseSessionWithUser (lib : Lib) (sdk : Sdk σ) (st : σ) (info : List JsValue) :
    Outcome σ :=
  if info.length < 1 || !(arg info 0).IsString then
    THROW_BAD_ARGS st "Bad arguments: Steam ID required"
  else
    let steam_id := lib.steamIdOf (arg info 0)
    if !lib.IsValid steam_id then
      THROW_BAD_ARGS st "Steam ID is invalid"
    else
      let identity := SteamNetworkingIdentity.SetSteamID steam_id
      let r := sdk.CloseSessionWithUser st identity
      { completion := .returned (.boolean r.1),
        trace := [.call (.CloseSessionWithUser identity)],
        state := r.2 }

/-- Binding `CloseChannelWithUser` (messages.cc:162-182). -/
def CloseChannelWithUser (lib : Lib) (sdk : Sdk σ) (st : σ) (info : List JsValue) :
    Outcome σ :=
  if info.length < 2 || !(arg info 0).IsString || !(arg info 1).IsInt32 then
    THROW_BAD_ARGS st "Bad arguments: Steam ID and channel required"
  else
    let steam_id := lib.steamIdOf (arg info 0)
    if !lib.IsValid steam_id then
      THROW_BAD_ARGS st "Steam ID is invalid"
    else
      let identity := SteamNetworkingIdentity.SetSteamID steam_id
      let nLocalVirtualPort := (arg info 1).Int32Value
      let r := sdk.CloseChannelWithUser st identity nLocalVirtualPort
      { completion := .returned (.boolean r.1),
        trace := [.call (.CloseChannelWithUser identity nLocalVirtualPort)],
        state := r.2 }

/-- The `quickStatus` object of `GetSessionConnectionInfo` (messages.cc:225-239). -/
def sessionStatusObj (quickStatus : SteamNetworkingQuickConnectionStatus) : JsValue :=
  .object [("ping", ofInt quickStatus.m_nPing),
    ("connectionQualityLocal", ofFloat quickStatus.m_flConnectionQualityLocal),
    ("connectionQualityRemote", ofFloat quickStatus.m_flConnectionQualityRemote),
    ("outPacketsPerSec", ofFloat quickStatus.m_flOutPacketsPerSec),
    ("outBytesPerSec", ofFloat quickStatus.m_flOutBytesPerSec),
    ("inPacketsPerSec", ofFloat quickStatus.m_flInPacketsPerSec),
    ("inBytesPerSec", ofFloat quickStatus.m_flInBytesPerSec)]

/-- Binding `GetSessionConnectionInfo` (messages.cc:186-243). -/
def GetSessionConnectionInfo (lib : Lib) (sdk : Sdk σ) (st : σ) (info : List JsValue) :
    Outcome σ :=
  if info.length < 1 || !(arg info 0).IsString then
    THROW_BAD_ARGS st "Bad arguments: Steam ID required"
  else
    let steam_id := lib.steamIdOf (arg info 0)
    if !lib.IsValid steam_id then
      THROW_BAD_ARGS st "Steam ID is invalid"
    else
      let identity := SteamNetworkingIdentity.SetSteamID steam_id
      let r := sdk.GetSessionConnectionInfo st identity
      let state := r.1.1
      let connectionInfo := r.1.2.1
      let quickStatus := r.1.2.2
      if state == k_ESteamNetworkingConnectionState_None then
        { completion := .returned .null,
          trace := [.call (.GetSessionConnectionInfo identity)],
          state := r.2 }
      else
        { completion := .returned (.object [("state", ofInt state),
            ("connectionInfo", .object [("endReason", ofInt connectionInfo.m_eEndReason),
              ("connectionDescription", .string connectionInfo.m_szConnectionDescription)]),
            ("quickStatus", sessionStatusObj quickStatus)]),
          trace := [.call (.GetSessionConnectionInfo identity)],
          state := r.2 }

/-! ## `steam_api_networking_sockets.cc` -/

/-- The tail shared by the three connection-creating bindings (sockets.cc:41-45,
69-73, 102-106): zero for the invalid handle, else the handle as a
`uint32_t`. -/
def handleResult (h invalid : Nat) : JsValue :=
  if h == invalid then ofInt 0 else ofInt ((h % 4294967296 : Nat) : Int)

/-- Binding `CreateListenSocketIP` (sockets.cc:23-46). -/
def CreateListenSocketIP (sdk : Sdk σ) (st : σ) (info : List JsValue) : Outcome σ :=
  if info.length < 1 || !(arg info 0).IsInt32 then
    THROW_BAD_ARGS st "Bad arguments: port number required"
  else
    let port := (arg info 0).Int32Value
    let localAddress := SteamNetworkingIPAddr.Clear.setPort port
    let nOptions : Int := 0
    let r := sdk.CreateListenSocketIP st localAddress nOptions
    let hSocket := r.1 % 4294967296
    { completion := .returned (handleResult hSocket k_HSteamListenSocket_Invalid),
      trace := [.call (.CreateListenSocketIP localAddress nOptions)],
      state := r.2 }

/-- Binding `ConnectByIPAddress` (sockets.cc:48-74). -/
def ConnectByIPAddress (lib : Lib) (sdk : Sdk σ) (st : σ) (info : List JsValue) :
    Outcome σ :=
  if info.length < 2 || !(arg info 0).IsString || !(arg info 1).IsInt32 then
    THROW_BAD_ARGS st "Bad arguments: IP address (string) and port (number) required"
  else
    let ip_str := (arg info 0).Utf8String
    let port := (arg info 1).Int32Value
    match lib.ParseString ip_str with
    | none => THROW_BAD_ARGS st "Invalid IP address format"
    | some parsed =>
      let address := parsed.setPort port
      let nOptions : Int := 0
      let r := sdk.ConnectByIPAddress st address nOptions
      let hConn := r.1 % 4294967296
      { completion := .returned (handleResult hConn k_HSteamNetConnection_Invalid),
        trace := [.call (.ConnectByIPAddress address nOptions)],
        state := r.2 }

/-- Binding `ConnectP2P` (sockets.cc:76-107). -/
def ConnectP2P (lib : Lib) (sdk : Sdk σ) (st : σ) (info : List JsValue) : Outcome σ :=
  if info.length < 1 || !(arg info 0).IsString then
    THROW_BAD_ARGS st "Bad arguments: Steam ID required"
  else
    let steam_id := lib.steamIdOf (arg info 0)
    if !lib.IsValid steam_id then
      THROW_BAD_ARGS st "Steam ID is invalid"
    else
      let identity := SteamNetworkingIdentity.SetSteamID steam_id
      let nVirtualPort :=
        if info.length ≥ 2 && (arg info 1).IsInt32 then (arg info 1).Int32Value else 0
      let nOptions : Int := 0
      let r := sdk.ConnectP2P st identity nVirtualPort nOptions
      let hConn := r.1 % 4294967296
      { completion := .returned (handleResult hConn k_HSteamNetConnection_Invalid),
        trace := [.call (.ConnectP2P identity nVirtualPort nOptions)],
        state := r.2 }

/-- Binding `AcceptConnection` (sockets.cc:109-120). -/
def AcceptConnection (sdk : Sdk σ) (st : σ) (info : List JsValue) : Outcome σ :=
  if info.length < 1 || !(arg info 0).IsUint32 then
    THROW_BAD_ARGS st "Bad arguments: connection handle required"
  else
    let hConn := (arg info 0).Uint32Value
    let r := sdk.AcceptConnection st hConn
    { completion := .returned (.boolean (r.1 == k_EResultOK)),
      trace := [.call (.AcceptConnection hConn)],
      state := r.2 }

/-- Binding `CloseConnection` (sockets.cc:122-149).  `pszDebug` is the null
pointer unless the third argument is a string; then it points into the
`Nan::Utf8String` local to the `if` block (sockets.cc:138-141), which is
destroyed before the SDK call (sockets.cc:146-147), so the SDK is handed a
dangling pointer to where that text was. -/
def CloseConnection (sdk : Sdk σ) (st : σ) (info : List JsValue) : Outcome σ :=
  if info.length < 1 || !(arg info 0).IsUint32 then
    THROW_BAD_ARGS st "Bad arguments: connection handle required"
  else
    let hConn := (arg info 0).Uint32Value
    let nReason :=
      if info.length ≥ 2 && (arg info 1).IsInt32 then (arg info 1).Int32Value else 0
    let pszDebug :=
      if info.length ≥ 3 && (arg info 2).IsString then
        CharPtr.dangling (arg info 2).Utf8String
      else CharPtr.null
    let bEnableLinger :=
      if info.length ≥ 4 && (arg info 3).IsBoolean then (arg info 3).BooleanValue else false
    let r := sdk.CloseConnection st hConn nReason pszDebug bEnableLinger
    { completion := .returned (.boolean r.1),
      trace := [.call (.CloseConnection hConn nReason pszDebug bEnableLinger)],
      state := r.2 }

/-- Binding `CloseListenSocket` (sockets.cc:151-162). -/
def CloseListenSocket (sdk : Sdk σ) (st : σ) (info : List JsValue) : Outcome σ :=
  if info.length < 1 || !(arg info 0).IsUint32 then
    THROW_BAD_ARGS st "Bad arguments: listen socket handle required"
  else
    let hSocket := (arg info 0).Uint32Value
    let r := sdk.CloseListenSocket st hSocket
    { completion := .returned (.boolean r.1),
      trace := [.call (.CloseListenSocket hSocket)],
      state := r.2 }

/-- Binding `SendMessageToConnection` (sockets.cc:166-195). -/
def SendMessageToConnection (sdk : Sdk σ) (st : σ) (info : List JsValue) : Outcome σ :=
  if info.length < 2 || !(arg info 0).IsUint32 then
    THROW_BAD_ARGS st "Bad arguments: connection handle and data buffer required"
  else
    let hConn := (arg info 0).Uint32Value
    if !(arg info 1).IsObject || !(arg info 1).HasInstance then
      THROW_BAD_ARGS st "Second argument must be a buffer"
    else
      let pData := (arg info 1).Data
      let cbData := (arg info 1).Length % 4294967296
      let nSendFlags := nSendFlags info
      let r := sdk.SendMessageToConnection st hConn pData cbData nSendFlags
      { completion := .returned (.boolean (r.1 == k_EResultOK)),
        trace := [.call (.SendMessageToConnection hConn pData cbData nSendFlags)],
        state := r.2 }

/-- Binding `ReceiveMessagesOnConnection` (sockets.cc:197-245). -/
def ReceiveMessagesOnConnection (sdk : Sdk σ) (st : σ) (info : List JsValue) : Outcome σ :=
  if info.length < 1 || !(arg info 0).IsUint32 then
    THROW_BAD_ARGS st "Bad arguments: connection handle required"
  else
    let hConn := (arg info 0).Uint32Value
    let nMax := nMaxMessages info
    let r := sdk.ReceiveMessagesOnConnection st hConn nMax
    { completion := .returned (messageArray connectionMessageObj r.1.1 r.1.2),
      trace := [.newArray nMax, .call (.ReceiveMessagesOnConnection hConn nMax)] ++
        messageLoopEvents r.1.2,
      state := r.2 }

/-- Binding `FlushMessagesOnConnection` (sockets.cc:247-258). -/
def FlushMessagesOnConnection (sdk : Sdk σ) (st : σ) (info : List JsValue) : Outcome σ :=
  if info.length < 1 || !(arg info 0).IsUint32 then
    THROW_BAD_ARGS st "Bad arguments: connection handle required"
  else
    let hConn := (arg info 0).Uint32Value
    let r := sdk.FlushMessagesOnConnection st hConn
    { completion := .returned (.boolean (r.1 == k_EResultOK)),
      trace := [.call (.FlushMessagesOnConnection hConn)],
      state := r.2 }

/-- The object built by `GetConnectionInfo` (sockets.cc:277-292). -/
def connectionInfoObj (connectionInfo : SteamNetConnectionInfo_t) : JsValue :=
  .object ([("state", ofInt connectionInfo.m_eState),
      ("endReason", ofInt connectionInfo.m_eEndReason)] ++
    (match connectionInfo.m_identityRemote.GetSteamID with
      | some steamID => [("steamIDRemote", JsValue.string (toString steamID))]
      | none => []) ++
    [("connectionDescription", .string connectionInfo.m_szConnectionDescription)])

/-- Binding `GetConnectionInfo` (sockets.cc:262-295). -/
def GetConnectionInfo (sdk : Sdk σ) (st : σ) (info : List JsValue) : Outcome σ :=
  if info.length < 1 || !(arg info 0).IsUint32 then
    THROW_BAD_ARGS st "Bad arguments: connection handle required"
  else
    let hConn := (arg info 0).Uint32Value
    let r := sdk.GetConnectionInfo st hConn
    if !r.1.1 then
      { completion := .returned .null, trace := [.call (.GetConnectionInfo hConn)],
        state := r.2 }
    else
      { completion := .returned (connectionInfoObj r.1.2),
        trace := [.call (.GetConnectionInfo hConn)], state := r.2 }

/-- The object built by `GetQuickConnectionStatus` (sockets.cc:312-337). -/
def quickStatusObj (status : SteamNetworkingQuickConnectionStatus) : JsValue :=
  .object [("state", ofInt status.m_eState),
    ("ping", ofInt status.m_nPing),
    ("connectionQualityLocal", ofFloat status.m_flConnectionQualityLocal),
    ("connectionQualityRemote", ofFloat status.m_flConnectionQualityRemote),
    ("outPacketsPerSec", ofFloat status.m_flOutPacketsPerSec),
    ("outBytesPerSec", ofFloat status.m_flOutBytesPerSec),
    ("inPacketsPerSec", ofFloat status.m_flInPacketsPerSec),
    ("inBytesPerSec", ofFloat status.m_flInBytesPerSec),
    ("sendRateBytesPerSecond", ofInt status.m_nSendRateBytesPerSecond),
    ("pendingUnreliable", ofInt status.m_cbPendingUnreliable),
    ("pendingReliable", ofInt status.m_cbPendingReliable),
    ("sentUnackedReliable", ofInt status.m_cbSentUnackedReliable)]

/-- Binding `GetQuickConnectionStatus` (sockets.cc:297-340). -/
def GetQuickConnectionStatus (sdk : Sdk σ) (st : σ) (info : List JsValue) : Outcome σ :=
  if info.length < 1 || !(arg info 0).IsUint32 then
    THROW_BAD_ARGS st "Bad arguments: connection handle required"
  else
    let hConn := (arg info 0).Uint32Value
    let r := sdk.GetQuickConnectionStatus st hConn
    if !r.1.1 then
      { completion := .returned .null, trace := [.call (.GetQuickConnectionStatus hConn)],
        state := r.2 }
    else
      { completion := .returned (quickStatusObj r.1.2),
        trace := [.call (.GetQuickConnectionStatus hConn)], state := r.2 }

/-- Binding `GetDetailedConnectionStatus` (sockets.cc:342-361), with `szBuf[2048]`. -/
def GetDetailedConnectionStatus (sdk : Sdk σ) (st : σ) (info : List JsValue) : Outcome σ :=
  if info.length < 1 || !(arg info 0).IsUint32 then
    THROW_BAD_ARGS st "Bad arguments: connection handle required"
  else
    let hConn := (arg info 0).Uint32Value
    let r := sdk.GetDetailedConnectionStatus st hConn 2048
    let result := r.1.1
    if result < 0 then
      { completion := .returned .null,
        trace := [.call (.GetDetailedConnectionStatus hConn 2048)], state := r.2 }
    else
      { completion := .returned (.string r.1.2),
        trace := [.call (.GetDetailedConnectionStatus hConn 2048)], state := r.2 }

/-- Binding `RunCallbacks` (sockets.cc:365-369). -/
def RunCallbacks (sdk : Sdk σ) (st : σ) (_info : List JsValue) : Outcome σ :=
  { completion := .returned .undefined, trace := [.call .RunCallbacks],
    state := sdk.RunCallbacks st }

/-! ## `steam_api_networking_utils.cc` -/

/-- Binding `GetLocalTimestamp` (utils.cc:21-28): the SDK's microseconds,
converted to a `double` and divided by `1000.0` in `double` arithmetic. -/
def GetLocalTimestamp (lib : Lib) (sdk : Sdk σ) (st : σ) (_info : List JsValue) :
    Outcome σ :=
  let r := sdk.GetLocalTimestamp st
  let timestampMs : ℚ := lib.toDouble (lib.toDouble (r.1 : ℚ) / 1000)
  { completion := .returned (.number timestampMs), trace := [.call .GetLocalTimestamp],
    state := r.2 }

/-- Binding `SetGlobalConfigValueInt32` (utils.cc:32-44). -/
def SetGlobalConfigValueInt32 (sdk : Sdk σ) (st : σ) (info : List JsValue) : Outcome σ :=
  if info.length < 2 || !(arg info 0).IsInt32 || !(arg info 1).IsInt32 then
    THROW_BAD_ARGS st "Bad arguments: config value type and int32 value required"
  else
    let eValue := (arg info 0).Int32Value
    let val := (arg info 1).Int32Value
    let r := sdk.SetGlobalConfigValueInt32 st eValue val
    { completion := .returned (.boolean r.1),
      trace := [.call (.SetGlobalConfigValueInt32 eValue val)], state := r.2 }

/-- Binding `SetGlobalConfigValueFloat` (utils.cc:46-59). -/
def SetGlobalConfigValueFloat (lib : Lib) (sdk : Sdk σ) (st : σ) (info : List JsValue) :
    Outcome σ :=
  if info.length < 2 || !(arg info 0).IsInt32 || !(arg info 1).IsNumber then
    THROW_BAD_ARGS st "Bad arguments: config value type and float value required"
  else
    let eValue := (arg info 0).Int32Value
    let val := lib.toFloat (arg info 1).NumberValue
    let r := sdk.SetGlobalConfigValueFloat st eValue val
    { completion := .returned (.boolean r.1),
      trace := [.call (.SetGlobalConfigValueFloat eValue val)], state := r.2 }

/-- Binding `SetGlobalConfigValueString` (utils.cc:61-74). -/
def SetGlobalConfigValueString (sdk : Sdk σ) (st : σ) (info : List JsValue) : Outcome σ :=
  if info.length < 2 || !(arg info 0).IsInt32 || !(arg info 1).IsString then
    THROW_BAD_ARGS st "Bad arguments: config value type and string value required"
  else
    let eValue := (arg info 0).Int32Value
    let val_str := (arg info 1).Utf8String
    let r := sdk.SetGlobalConfigValueString st eValue val_str
    { completion := .returned (.boolean r.1),
      trace := [.call (.SetGlobalConfigValueString eValue val_str)], state := r.2 }

/-- Binding `SetConnectionConfigValueInt32` (utils.cc:76-92). -/
def SetConnectionConfigValueInt32 (sdk : Sdk σ) (st : σ) (info : List JsValue) : Outcome σ :=
  if info.length < 3 || !(arg info 0).IsUint32 || !(arg info 1).IsInt32 ||
      !(arg info 2).IsInt32 then
    THROW_BAD_ARGS st
      "Bad arguments: connection handle, config value type, and int32 value required"
  else
    let hConn := (arg info 0).Uint32Value
    let eValue := (arg info 1).Int32Value
    let val := (arg info 2).Int32Value
    let r := sdk.SetConnectionConfigValueInt32 st hConn eValue val
    { completion := .returned (.boolean r.1),
      trace := [.call (.SetConnectionConfigValueInt32 hConn eValue val)], state := r.2 }

/-- Binding `SetConnectionConfigValueFloat` (utils.cc:94-111). -/
def SetConnectionConfigValueFloat (lib : Lib) (sdk : Sdk σ) (st : σ) (info : List JsValue) :
    Outcome σ :=
  if info.length < 3 || !(arg info 0).IsUint32 || !(arg info 1).IsInt32 ||
      !(arg info 2).IsNumber then
    THROW_BAD_ARGS st
      "Bad arguments: connection handle, config value type, and float value required"
  else
    let hConn := (arg info 0).Uint32Value
    let eValue := (arg info 1).Int32Value
    let val := lib.toFloat (arg info 2).NumberValue
    let r := sdk.SetConnectionConfigValueFloat st hConn eValue val
    { completion := .returned (.boolean r.1),
      trace := [.call (.SetConnectionConfigValueFloat hConn eValue val)], state := r.2 }

/-- Binding `SetConnectionConfigValueString` (utils.cc:113-129). -/
def SetConnectionConfigValueString (sdk : Sdk σ) (st : σ) (info : List JsValue) : Outcome σ :=
  if info.length < 3 || !(arg info 0).IsUint32 || !(arg info 1).IsInt32 ||
      !(arg info 2).IsString then
    THROW_BAD_ARGS st
      "Bad arguments: connection handle, config value type, and string value required"
  else
    let hConn := (arg info 0).Uint32Value
    let eValue := (arg info 1).Int32Value
    let val_str := (arg info 2).Utf8String
    let r := sdk.SetConnectionConfigValueString st hConn eValue val_str
    { completion := .returned (.boolean r.1),
      trace := [.call (.SetConnectionConfigValueString hConn eValue val_str)], state := r.2 }

/-- Binding `SetDebugOutputFunction` (utils.cc:133-148). -/
def SetDebugOutputFunction (sdk : Sdk σ) (st : σ) (info : List JsValue) : Outcome σ :=
  if info.length < 1 || !(arg info 0).IsInt32 then
    THROW_BAD_ARGS st "Bad arguments: debug output type required"
  else
    let eDetailLevel := (arg info 0).Int32Value
    { completion := .returned (.boolean true),
      trace := [.call (.SetDebugOutputFunction eDetailLevel)],
      state := sdk.SetDebugOutputFunction st eDetailLevel }

/-- Binding `IsFakeIPv4` (utils.cc:152-161). -/
def IsFakeIPv4 (sdk : Sdk σ) (st : σ) (info : List JsValue) : Outcome σ :=
  if info.length < 1 || !(arg info 0).IsUint32 then
    THROW_BAD_ARGS st "Bad arguments: IP address (uint32) required"
  else
    let nIPv4 := (arg info 0).Uint32Value
    let r := sdk.IsFakeIPv4 st nIPv4
    { completion := .returned (.boolean r.1), trace := [.call (.IsFakeIPv4 nIPv4)],
      state := r.2 }

/-- Binding `GetIPv4FakeIPType` (utils.cc:163-173). -/
def GetIPv4FakeIPType (sdk : Sdk σ) (st : σ) (info : List JsValue) : Outcome σ :=
  if info.length < 1 || !(arg info 0).IsUint32 then
    THROW_BAD_ARGS st "Bad arguments: IP address (uint32) required"
  else
    let nIPv4 := (arg info 0).Uint32Value
    let r := sdk.GetIPv4FakeIPType st nIPv4
    { completion := .returned (ofInt r.1), trace := [.call (.GetIPv4FakeIPType nIPv4)],
      state := r.2 }

/-- Binding `GetRealIdentityForFakeIP` (utils.cc:177-210). -/
def GetRealIdentityForFakeIP (lib : Lib) (sdk : Sdk σ) (st : σ) (info : List JsValue) :
    Outcome σ :=
  if info.length < 2 || !(arg info 0).IsString || !(arg info 1).IsUint32 then
    THROW_BAD_ARGS st "Bad arguments: IP address string and port required"
  else
    let ip_str := (arg info 0).Utf8String
    let port := (arg info 1).Uint32Value % 65536
    match lib.ParseString ip_str with
    | none => { completion := .returned .null, trace := [], state := st }
    | some parsed =>
      let fakeIP := { parsed with m_port := port }
      let r := sdk.GetRealIdentityForFakeIP st fakeIP
      let result := r.1.1
      let pOutRealIdentity := r.1.2
      if result != k_EResultOK then
        { completion := .returned .null,
          trace := [.call (.GetRealIdentityForFakeIP fakeIP)], state := r.2 }
      else
        match pOutRealIdentity.GetSteamID with
        | some steamID =>
          { completion := .returned (.string (toString steamID)),
            trace := [.call (.GetRealIdentityForFakeIP fakeIP)], state := r.2 }
        | none =>
          { completion := .returned .null,
            trace := [.call (.GetRealIdentityForFakeIP fakeIP)], state := r.2 }

/-- Binding `CheckPingDataUpToDate` (utils.cc:214-225); the default is the
`float` value `60.0f * 5`. -/
def CheckPingDataUpToDate (lib : Lib) (sdk : Sdk σ) (st : σ) (info : List JsValue) :
    Outcome σ :=
  let maxAgeSeconds :=
    if info.length ≥ 1 && (arg info 0).IsNumber then lib.toFloat (arg info 0).NumberValue
    else CFloat.finite (60 * 5)
  let r := sdk.CheckPingDataUpToDate st maxAgeSeconds
  { completion := .returned (.boolean r.1),
    trace := [.call (.CheckPingDataUpToDate maxAgeSeconds)], state := r.2 }

/-- Binding `GetPingToDataCenter` (utils.cc:227-250). -/
def GetPingToDataCenter (sdk : Sdk σ) (st : σ) (info : List JsValue) : Outcome σ :=
  if info.length < 1 || !(arg info 0).IsUint32 then
    THROW_BAD_ARGS st "Bad arguments: PoP ID required"
  else
    let popID := (arg info 0).Uint32Value
    let r := sdk.GetPingToDataCenter st popID
    let ping := r.1.1
    let pViaRelayPoP := r.1.2
    if ping < 0 then
      { completion := .returned .null, trace := [.call (.GetPingToDataCenter popID)],
        state := r.2 }
    else
      { completion := .returned (.object [("ping", ofInt ping),
          ("viaRelayPoP", ofInt ((pViaRelayPoP % 4294967296 : Nat) : Int))]),
        trace := [.call (.GetPingToDataCenter popID)], state := r.2 }

/-- Binding `GetDirectPingToPOP` (utils.cc:252-268). -/
def GetDirectPingToPOP (sdk : Sdk σ) (st : σ) (info : List JsValue) : Outcome σ :=
  if info.length < 1 || !(arg info 0).IsUint32 then
    THROW_BAD_ARGS st "Bad arguments: PoP ID required"
  else
    let popID := (arg info 0).Uint32Value
    let r := sdk.GetDirectPingToPOP st popID
    let ping := r.1
    if ping < 0 then
      { completion := .returned .null, trace := [.call (.GetDirectPingToPOP popID)],
        state := r.2 }
    else
      { completion := .returned (ofInt ping), trace := [.call (.GetDirectPingToPOP popID)],
        state := r.2 }

/-- Binding `GetPOPCount` (utils.cc:270-274). -/
def GetPOPCount (sdk : Sdk σ) (st : σ) (_info : List JsValue) : Outcome σ :=
  let r := sdk.GetPOPCount st
  let count := r.1
  { completion := .returned (ofInt count), trace := [.call .GetPOPCount], state := r.2 }

/-- Binding `GetPOPList` (utils.cc:276-295). -/
def GetPOPList (sdk : Sdk σ) (st : σ) (_info : List JsValue) : Outcome σ :=
  let r := sdk.GetPOPCount st
  let count := r.1
  if count ≤ 0 then
    { completion := .returned (.array []), trace := [.call .GetPOPCount], state := r.2 }
  else
    let r2 := sdk.GetPOPList r.2 count
    let list := r2.1.1
    let actualCount := r2.1.2
    { completion := .returned (.array ((List.range actualCount.toNat).map
        (fun i => ofInt ((list i % 4294967296 : Nat) : Int)))),
      trace := [.call .GetPOPCount, .newArray count, .call (.GetPOPList count)],
      state := r2.2 }

/-! ## Sample helpers and SDK, for evaluating the bindings on concrete inputs -/

/-- The value of the leading decimal digits of a character list. -/
def leadingDigits : List Char → Nat → Nat
  | [], acc => acc
  | c :: cs, acc =>
    if c.isDigit then leadingDigits cs (acc * 10 + (c.toNat - 48)) else acc

/-- Sample helpers: `strToUint64` reads the leading decimal digits, a Steam ID
is valid when it is not zero, the address parser knows the IPv4 loopback
address only, and every number is taken to be a `double` and a `float`
already. -/
def sampleLib : Lib where
  strToUint64 := fun s => leadingDigits s.data 0
  IsValid := fun id => id != 0
  ParseString := fun s =>
    if s == "127.0.0.1" then
      some { m_ipv6 := [0, 0, 0, 0, 0, 0, 0, 0, 0, 0, 255, 255, 127, 0, 0, 1], m_port := 0 }
    else none
  toDouble := fun q => q
  toFloat := fun x => x

/-- A message of three bytes on channel 7 of connection 5. -/
def sampleMessage : SteamNetworkingMessage_t where
  m_pData := [1, 2, 3]
  m_cbSize := 3
  m_conn := 5
  m_identityPeer := .other 0
  m_nChannel := 7

/-- A connection-info record with no remote identity. -/
def sampleConnectionInfo : SteamNetConnectionInfo_t where
  m_eState := 3
  m_eEndReason := 0
  m_identityRemote := .other 0
  m_szConnectionDescription := "sample"

/-- A quick-status record with every metric zero. -/
def sampleQuickStatus : SteamNetworkingQuickConnectionStatus where
  m_eState := 3
  m_nPing := 0
  m_flConnectionQualityLocal := .finite 0
  m_flConnectionQualityRemote := .finite 0
  m_flOutPacketsPerSec := .finite 0
  m_flOutBytesPerSec := .finite 0
  m_flInPacketsPerSec := .finite 0
  m_flInBytesPerSec := .finite 0
  m_nSendRateBytesPerSecond := 0
  m_cbPendingUnreliable := 0
  m_cbPendingReliable := 0
  m_cbSentUnackedReliable := 0

/-- A sample SDK whose state counts the interface calls made so far.  Sends,
accepts and flushes answer with the result code `code`; connection-creating
calls answer with the handle `handle`; the ping calls answer `ping` through
relay `9`; the point-of-presence count is `count`; receive calls hand back one
`sampleMessage`. -/
def sampleSdk (code : Int) (handle : Nat) (ping count : Int) : Sdk Nat where
  SendMessageToUser := fun s _ _ _ _ _ => (code, s + 1)
  ReceiveMessagesOnChannel := fun s _ _ => ((fun _ => sampleMessage, 1), s + 1)
  AcceptSessionWithUser := fun s _ => (true, s + 1)
  CloseSessionWithUser := fun s _ => (true, s + 1)
  CloseChannelWithUser := fun s _ _ => (true, s + 1)
  GetSessionConnectionInfo := fun s _ => ((3, sampleConnectionInfo, sampleQuickStatus), s + 1)
  CreateListenSocketIP := fun s _ _ => (handle, s + 1)
  ConnectByIPAddress := fun s _ _ => (handle, s + 1)
  ConnectP2P := fun s _ _ _ => (handle, s + 1)
  AcceptConnection := fun s _ => (code, s + 1)
  CloseConnection := fun s _ _ _ _ => (true, s + 1)
  CloseListenSocket := fun s _ => (true, s + 1)
  SendMessageToConnection := fun s _ _ _ _ => (code, s + 1)
  ReceiveMessagesOnConnection := fun s _ _ => ((fun _ => sampleMessage, 1), s + 1)
  FlushMessagesOnConnection := fun s _ => (code, s + 1)
  GetConnectionInfo := fun s _ => ((true, sampleConnectionInfo), s + 1)
  GetQuickConnectionStatus := fun s _ => ((true, sampleQuickStatus), s + 1)
  GetDetailedConnectionStatus := fun s _ _ => ((0, "detail"), s + 1)
  RunCallbacks := fun s => s + 1
  GetLocalTimestamp := fun s => (1000 * (s : Int), s + 1)
  SetGlobalConfigValueInt32 := fun s _ _ => (true, s + 1)
  SetGlobalConfigValueFloat := fun s _ _ => (true, s + 1)
  SetGlobalConfigValueString := fun s _ _ => (true, s + 1)
  SetConnectionConfigValueInt32 := fun s _ _ _ => (true, s + 1)
  SetConnectionConfigValueFloat := fun s _ _ _ => (true, s + 1)
  SetConnectionConfigValueString := fun s _ _ _ => (true, s + 1)
  SetDebugOutputFunction := fun s _ => s + 1
  IsFakeIPv4 := fun s _ => (false, s + 1)
  GetIPv4FakeIPType := fun s _ => (0, s + 1)
  GetRealIdentityForFakeIP := fun s _ => ((code, .steamID 76561197960287930), s + 1)
  CheckPingDataUpToDate := fun s _ => (true, s + 1)
  GetPingToDataCenter := fun s _ => ((ping, 9), s + 1)
  GetDirectPingToPOP := fun s _ => (ping, s + 1)
  GetPOPCount := fun s => (count, s + 1)
  GetPOPList := fun s n => ((fun i => i + 100, n), s + 1)

/-- A message whose size field covers the first two of the four bytes at
`m_pData`, sent by a Steam user on channel 1 of connection 6. -/
def shortMessage : SteamNetworkingMessage_t where
  m_pData := [9, 8, 7, 6]
  m_cbSize := 2
  m_conn := 6
  m_identityPeer := .steamID 76561197960287930
  m_nChannel := 1

/-- The sample SDK, except that every receive call hands back the batch of two
messages `sampleMessage`, `shortMessage`. -/
def batchSdk : Sdk Nat :=
  { sampleSdk 1 4 10 3 with
    ReceiveMessagesOnChannel := fun s _ _ =>
      ((fun i => if i = 0 then sampleMessage else shortMessage, 2), s + 1)
    ReceiveMessagesOnConnection := fun s _ _ =>
      ((fun i => if i = 0 then sampleMessage else shortMessage, 2), s + 1) }

/-- The state of the model SDK: the payloads sent and not yet received, the
open listen sockets, and the next handle to hand out. -/
structure ModelState where
  inbox : List (List Nat)
  listening : List Nat
  nextHandle : Nat

/-- The message the model SDK builds for a queued payload: `m_cbSize` is the
length of the payload, and the memory at `m_pData` holds the payload followed
by two bytes that are not part of the message. -/
def modelMessage (hConn : Nat) (payload : List Nat) : SteamNetworkingMessage_t where
  m_pData := payload ++ [170, 85]
  m_cbSize := (payload.length : Int)
  m_conn := hConn
  m_identityPeer := .other 0
  m_nChannel := 0

/-- A model SDK with a loopback connection and a listen-socket table.
`SendMessageToConnection` queues the `cbData` bytes it is given;
`ReceiveMessagesOnConnection` hands back up to `nMaxMessages` queued payloads,
oldest first (and `-1` for the invalid handle `0`).  `CreateListenSocketIP`
opens a socket under the next handle; `CloseListenSocket` reports whether the
handle was open and closes it.  The other calls answer as an idle SDK. -/
def modelSdk : Sdk ModelState where
  SendMessageToUser := fun s _ _ _ _ _ => (2, s)
  ReceiveMessagesOnChannel := fun s _ _ => ((fun _ => sampleMessage, 0), s)
  AcceptSessionWithUser := fun s _ => (false, s)
  CloseSessionWithUser := fun s _ => (false, s)
  CloseChannelWithUser := fun s _ _ => (false, s)
  GetSessionConnectionInfo := fun s _ => ((0, sampleConnectionInfo, sampleQuickStatus), s)
  CreateListenSocketIP := fun s _ _ =>
    (s.nextHandle % 4294967296,
      { s with listening := (s.nextHandle % 4294967296) :: s.listening,
               nextHandle := s.nextHandle + 1 })
  ConnectByIPAddress := fun s _ _ => (0, s)
  ConnectP2P := fun s _ _ _ => (0, s)
  AcceptConnection := fun s _ => (2, s)
  CloseConnection := fun s _ _ _ _ => (false, s)
  CloseListenSocket := fun s h =>
    (decide (h ∈ s.listening), { s with listening := s.listening.filter (fun x => x != h) })
  SendMessageToConnection := fun s _ pData cbData _ =>
    (k_EResultOK, { s with inbox := s.inbox ++ [pData.take cbData] })
  ReceiveMessagesOnConnection := fun s hConn nMax =>
    if hConn = 0 then ((fun _ => sampleMessage, -1), s)
    else
      ((fun i => modelMessage hConn ((s.inbox.take nMax.toNat).getD i []),
        ((s.inbox.take nMax.toNat).length : Int)),
       { s with inbox := s.inbox.drop nMax.toNat })
  FlushMessagesOnConnection := fun s _ => (k_EResultOK, s)
  GetConnectionInfo := fun s _ => ((false, sampleConnectionInfo), s)
  GetQuickConnectionStatus := fun s _ => ((false, sampleQuickStatus), s)
  GetDetailedConnectionStatus := fun s _ _ => ((-1, ""), s)
  RunCallbacks := fun s => s
  GetLocalTimestamp := fun s => (0, s)
  SetGlobalConfigValueInt32 := fun s _ _ => (false, s)
  SetGlobalConfigValueFloat := fun s _ _ => (false, s)
  SetGlobalConfigValueString := fun s _ _ => (false, s)
  SetConnectionConfigValueInt32 := fun s _ _ _ => (false, s)
  SetConnectionConfigValueFloat := fun s _ _ _ => (false, s)
  SetConnectionConfigValueString := fun s _ _ _ => (false, s)
  SetDebugOutputFunction := fun s _ => s
  IsFakeIPv4 := fun s _ => (false, s)
  GetIPv4FakeIPType := fun s _ => (0, s)
  GetRealIdentityForFakeIP := fun s _ => ((2, .other 0), s)
  CheckPingDataUpToDate := fun s _ => (false, s)
  GetPingToDataCenter := fun s _ => ((-1, 0), s)
  GetDirectPingToPOP := fun s _ => (-1, s)
  GetPOPCount := fun s => (0, s)
  GetPOPList := fun s _ => ((fun _ => 0, 0), s)

/-- The model SDK at start: nothing queued, nothing open, first handle `1`. -/
def modelStart : ModelState := { inbox := [], listening := [], nextHandle := 1 }

/-! ## Basic facts about host values and arguments -/

theorem den_ofInt (n : Int) : ((n : ℚ)).den = 1 := by simp

theorem num_ofInt (n : Int) : ((n : ℚ)).num = n := by simp

theorem truncate_ofInt (n : Int) : truncate (n : ℚ) = n := by
  simp [truncate]

theorem IsInt32_ofInt (n : Int) :
    (ofInt n).IsInt32 = true ↔ -2147483648 ≤ n ∧ n ≤ 2147483647 := by
  simp [ofInt, IsInt32]

theorem Int32Value_ofInt (n : Int) (h1 : -2147483648 ≤ n) (h2 : n ≤ 2147483647) :
    (ofInt n).Int32Value = n := by
  simp only [ofInt, Int32Value, truncate_ofInt]
  split <;> omega

theorem IsUint32_ofInt (n : Int) :
    (ofInt n).IsUint32 = true ↔ 0 ≤ n ∧ n ≤ 4294967295 := by
  simp [ofInt, IsUint32]

theorem Uint32Value_ofInt (n : Int) (h1 : 0 ≤ n) (h2 : n ≤ 4294967295) :
    ((ofInt n).Uint32Value : Int) = n := by
  simp only [ofInt, Uint32Value, truncate_ofInt]
  omega

theorem ofInt_injective {a b : Int} (h : ofInt a = ofInt b) : a = b := by
  simp only [ofInt, JsValue.number.injEq] at h
  exact_mod_cast h

theorem arg_of_length_le (info : List JsValue) (i : Nat) (h : info.length ≤ i) :
    arg info i = JsValue.undefined := by
  simp [arg, List.getD, List.getElem?_eq_none h]

theorem lt_length_of_arg_ne (info : List JsValue) (i : Nat)
    (h : arg info i ≠ JsValue.undefined) : i < info.length := by
  by_contra hc
  exact h (arg_of_length_le info i (Nat.le_of_not_lt hc))

theorem sdkCalls_messageLoopEvents (k : Int) : sdkCalls (messageLoopEvents k) = [] := by
  unfold messageLoopEvents
  induction List.range k.toNat with
  | nil => rfl
  | cons a l ih => simpa [List.flatMap_cons, sdkCalls] using ih

theorem nMaxMessages_ofInt (info : List JsValue) (n : Int) (harg : arg info 1 = ofInt n)
    (h1 : -2147483648 ≤ n) (h2 : n ≤ 2147483647) :
    nMaxMessages info = if n < 1 ∨ 256 < n then 32 else n := by
  have hlen : 1 < info.length := lt_length_of_arg_ne info 1 (by rw [harg]; simp [ofInt])
  have hi : (ofInt n).IsInt32 = true := (IsInt32_ofInt n).2 ⟨h1, h2⟩
  have hl : (2 ≤ info.length) := hlen
  simp [nMaxMessages, harg, hi, Int32Value_ofInt n h1 h2, hl]

/-- C1: when the second argument of `receiveMessagesOnChannel` or
`receiveMessagesOnConnection` is an int32 `n` with `n < 1` or `n > 256`, the
count used is exactly 32 (so not `n`): 32 sizes the message-pointer array and
32 is the maximum handed to the SDK receive call, and the call does not raise
(for the connection variant, given a uint32 handle). -/
theorem receive_count_out_of_range_uses_default (sdk : Sdk σ) (st : σ) (info : List JsValue)
    (n : Int) (harg : arg info 1 = ofInt n)
    (hint : -2147483648 ≤ n ∧ n ≤ 2147483647) (hout : n < 1 ∨ 256 < n) :
    nMaxMessages info = 32 ∧ nMaxMessages info ≠ n ∧
    (∃ port, (ReceiveMessagesOnChannel sdk st info).trace =
        Event.newArray 32 :: Event.call (.ReceiveMessagesOnChannel port 32) ::
          messageLoopEvents (sdk.ReceiveMessagesOnChannel st port 32).1.2) ∧
    (ReceiveMessagesOnChannel sdk st info).raisedBadArgs = false ∧
    ((arg info 0).IsUint32 = true →
      (ReceiveMessagesOnConnection sdk st info).trace =
        Event.newArray 32 ::
          Event.call (.ReceiveMessagesOnConnection (arg info 0).Uint32Value 32) ::
          messageLoopEvents
            (sdk.ReceiveMessagesOnConnection st (arg info 0).Uint32Value 32).1.2 ∧
      (ReceiveMessagesOnConnection sdk st info).raisedBadArgs = false) := by
  have h32 : nMaxMessages info = 32 := by
    rw [nMaxMessages_ofInt info n harg hint.1 hint.2, if_pos hout]
  refine ⟨h32, ?_, ?_, ?_, ?_⟩
  · rw [h32]; omega
  · refine ⟨if info.length ≥ 1 && (arg info 0).IsInt32 then (arg info 0).Int32Value else 0, ?_⟩
    simp [ReceiveMessagesOnChannel, h32]
  · simp [ReceiveMessagesOnChannel, Outcome.raisedBadArgs]
  · intro hu
    have hlen : 0 < info.length := lt_length_of_arg_ne info 0 (by
      intro h; rw [h] at hu; simp [IsUint32] at hu)
    have hl : ¬ info.length < 1 := by omega
    simp [ReceiveMessagesOnConnection, h32, hu, hl, Outcome.raisedBadArgs]

theorem receive_count_out_of_range_uses_default_witness :
    arg [ofInt 0, ofInt 300] 1 = ofInt 300 ∧
    nMaxMessages [ofInt 0, ofInt 300] = 32 ∧
    (ReceiveMessagesOnConnection (sampleSdk 1 4 10 3) 0 [ofInt 0, ofInt 300]).trace =
      [Event.newArray 32, Event.call (.ReceiveMessagesOnConnection 0 32),
        Event.copyBuffer 0, Event.release 0] :=
  have h := receive_count_out_of_range_uses_default (sampleSdk 1 4 10 3) 0
    [ofInt 0, ofInt 300] 300 rfl (by decide) (by decide)
  ⟨rfl, h.1, (h.2.2.2.2 rfl).1⟩

theorem nMaxMessages_bounds (info : List JsValue) :
    1 ≤ nMaxMessages info ∧ nMaxMessages info ≤ 256 := by
  unfold nMaxMessages
  split
  · simp only
    split
    · omega
    · rename_i h
      simp only [Bool.or_eq_true, decide_eq_true_eq, not_or] at h
      omega
  · omega

/-- C2: whatever the arguments, the count the receive bindings use lies in
`[1,256]`; when the second argument is an int32 `n` with `1 ≤ n ≤ 256` it is
exactly `n`.  That count is the maximum passed in the single SDK receive call
(the connection variant makes no SDK call at all when the handle argument is
rejected), and the returned list has one element per message the SDK reports,
so at most `n` when the SDK honours the maximum. -/
theorem receive_count_within_bounds (sdk : Sdk σ) (st : σ) (info : List JsValue) :
    (1 ≤ nMaxMessages info ∧ nMaxMessages info ≤ 256) ∧
    (∀ n : Int, arg info 1 = ofInt n → 1 ≤ n → n ≤ 256 → nMaxMessages info = n) ∧
    (∃ port, sdkCalls (ReceiveMessagesOnChannel sdk st info).trace =
        [SdkCall.ReceiveMessagesOnChannel port (nMaxMessages info)] ∧
      ((sdk.ReceiveMessagesOnChannel st port (nMaxMessages info)).1.2 ≤ nMaxMessages info →
        ((ReceiveMessagesOnChannel sdk st info).returnedItems.length : Int) ≤
          nMaxMessages info)) ∧
    (((ReceiveMessagesOnConnection sdk st info).raisedBadArgs = true ∧
        (ReceiveMessagesOnConnection sdk st info).trace = []) ∨
      (sdkCalls (ReceiveMessagesOnConnection sdk st info).trace =
          [SdkCall.ReceiveMessagesOnConnection (arg info 0).Uint32Value (nMaxMessages info)] ∧
        ((sdk.ReceiveMessagesOnConnection st (arg info 0).Uint32Value
            (nMaxMessages info)).1.2 ≤ nMaxMessages info →
          ((ReceiveMessagesOnConnection sdk st info).returnedItems.length : Int) ≤
            nMaxMessages info))) := by
  have hb := nMaxMessages_bounds info
  refine ⟨hb, ?_, ?_, ?_⟩
  · intro n harg h1 h256
    rw [nMaxMessages_ofInt info n harg (by omega) (by omega)]
    simp only [ite_eq_right_iff]
    omega
  · refine ⟨if info.length ≥ 1 && (arg info 0).IsInt32 then (arg info 0).Int32Value else 0,
      ?_, ?_⟩
    · simp [ReceiveMessagesOnChannel, sdkCalls, sdkCalls_messageLoopEvents]
    · intro hle
      simp only [ReceiveMessagesOnChannel, Outcome.returnedItems, messageArray,
        List.length_map, List.length_range]
      omega
  · by_cases hg : (info.length < 1 || !(arg info 0).IsUint32) = true
    · left
      simp [ReceiveMessagesOnConnection, hg, THROW_BAD_ARGS, Outcome.raisedBadArgs]
    · right
      refine ⟨?_, ?_⟩
      · simp [ReceiveMessagesOnConnection, hg, sdkCalls, sdkCalls_messageLoopEvents]
      · intro hle
        simp only [ReceiveMessagesOnConnection, hg, Outcome.returnedItems, messageArray,
          List.length_map, List.length_range]
        simp only [Bool.false_eq_true, ↓reduceIte, List.length_map, List.length_range]
        omega

theorem receive_count_within_bounds_witness :
    nMaxMessages [ofInt 0, ofInt 5] = 5 ∧
    sdkCalls (ReceiveMessagesOnConnection (sampleSdk 1 4 10 3) 0 [ofInt 0, ofInt 5]).trace =
      [SdkCall.ReceiveMessagesOnConnection 0 5] :=
  have h := receive_count_within_bounds (sampleSdk 1 4 10 3) 0 [ofInt 0, ofInt 5]
  ⟨h.2.1 5 rfl (by decide) (by decide), rfl⟩

/-- C3: when the first argument is a string that does not parse to a valid
64-bit Steam ID, each of `sendMessageToUser`, `acceptSessionWithUser`,
`closeSessionWithUser`, `closeChannelWithUser`, `getSessionConnectionInfo` and
`connectP2P` raises bad-argument, makes no SDK call (it has no effect at all,
and the SDK state is untouched) and so returns no value or handle. -/
theorem malformed_identity_rejected (lib : Lib) (sdk : Sdk σ) (st : σ) (info : List JsValue)
    (s : String) (harg : arg info 0 = JsValue.string s)
    (hbad : lib.IsValid (lib.steamIdOf (JsValue.string s)) = false) :
    ∀ o ∈ [SendMessageToUser lib sdk st info, AcceptSessionWithUser lib sdk st info,
        CloseSessionWithUser lib sdk st info, CloseChannelWithUser lib sdk st info,
        GetSessionConnectionInfo lib sdk st info, ConnectP2P lib sdk st info],
      o.raisedBadArgs = true ∧ o.trace = [] ∧ o.state = st := by
  intro o ho
  simp only [List.mem_cons, List.mem_singleton, List.not_mem_nil, or_false] at ho
  rcases ho with h | h | h | h | h | h <;> subst h
  · unfold SendMessageToUser
    split
    · simp [THROW_BAD_ARGS, Outcome.raisedBadArgs]
    · simp [harg, hbad, THROW_BAD_ARGS, Outcome.raisedBadArgs]
  · unfold AcceptSessionWithUser
    split
    · simp [THROW_BAD_ARGS, Outcome.raisedBadArgs]
    · simp [harg, hbad, THROW_BAD_ARGS, Outcome.raisedBadArgs]
  · unfold CloseSessionWithUser
    split
    · simp [THROW_BAD_ARGS, Outcome.raisedBadArgs]
    · simp [harg, hbad, THROW_BAD_ARGS, Outcome.raisedBadArgs]
  · unfold CloseChannelWithUser
    split
    · simp [THROW_BAD_ARGS, Outcome.raisedBadArgs]
    · simp [harg, hbad, THROW_BAD_ARGS, Outcome.raisedBadArgs]
  · unfold GetSessionConnectionInfo
    split
    · simp [THROW_BAD_ARGS, Outcome.raisedBadArgs]
    · simp [harg, hbad, THROW_BAD_ARGS, Outcome.raisedBadArgs]
  · unfold ConnectP2P
    split
    · simp [THROW_BAD_ARGS, Outcome.raisedBadArgs]
    · simp [harg, hbad, THROW_BAD_ARGS, Outcome.raisedBadArgs]

theorem malformed_identity_rejected_witness :
    sampleLib.IsValid (sampleLib.steamIdOf (JsValue.string "abc")) = false ∧
    (ConnectP2P sampleLib (sampleSdk 1 4 10 3) 0 [JsValue.string "abc", ofInt 1]).raisedBadArgs
      = true ∧
    (SendMessageToUser sampleLib (sampleSdk 1 4 10 3) 0
      [JsValue.string "abc", JsValue.buffer [1, 2]]).trace = [] :=
  have h := malformed_identity_rejected sampleLib (sampleSdk 1 4 10 3) 0
    [JsValue.string "abc", ofInt 1] "abc" rfl rfl
  have h2 := malformed_identity_rejected sampleLib (sampleSdk 1 4 10 3) 0
    [JsValue.string "abc", JsValue.buffer [1, 2]] "abc" rfl rfl
  ⟨rfl, (h _ (by simp)).1, (h2 _ (List.mem_cons_self _ _)).2.1⟩

theorem ConnectByIPAddress_parse_failure (lib : Lib) (sdk : Sdk σ) (st : σ)
    (info : List JsValue) (hparse : lib.ParseString (arg info 0).Utf8String = none) :
    (ConnectByIPAddress lib sdk st info).raisedBadArgs = true ∧
    (ConnectByIPAddress lib sdk st info).trace = [] ∧
    (ConnectByIPAddress lib sdk st info).state = st ∧
    ((arg info 0).IsString = true → (arg info 1).IsInt32 = true →
      (ConnectByIPAddress lib sdk st info).completion =
        Completion.badArgs "Invalid IP address format") := by
  unfold ConnectByIPAddress
  split
  · rename_i hg
    refine ⟨by simp [THROW_BAD_ARGS, Outcome.raisedBadArgs], rfl, rfl, ?_⟩
    intro h0 h1
    have hlen : 1 < info.length := lt_length_of_arg_ne info 1 (by
      intro h; rw [h] at h1; simp [IsInt32] at h1)
    simp [h0, h1] at hg
    omega
  · simp [hparse, THROW_BAD_ARGS, Outcome.raisedBadArgs]

/-- C4: when the IP string given to `connectByIPAddress` fails to parse, the
binding raises bad-argument (with the message "Invalid IP address format" when
the port is an int32), the SDK `ConnectByIPAddress` call is never made (no SDK
call at all, the SDK state is untouched), and no handle is returned. -/
theorem connectByIPAddress_rejects_unparsable (lib : Lib) (sdk : Sdk σ) (st : σ)
    (info : List JsValue) (s : String) (harg : arg info 0 = JsValue.string s)
    (hport : (arg info 1).IsInt32 = true)
    (hparse : lib.ParseString (JsValue.string s).Utf8String = none) :
    (ConnectByIPAddress lib sdk st info).completion =
      Completion.badArgs "Invalid IP address format" ∧
    (ConnectByIPAddress lib sdk st info).raisedBadArgs = true ∧
    sdkCalls (ConnectByIPAddress lib sdk st info).trace = [] ∧
    (ConnectByIPAddress lib sdk st info).trace = [] ∧
    (ConnectByIPAddress lib sdk st info).state = st := by
  have h := ConnectByIPAddress_parse_failure lib sdk st info (by rw [harg]; exact hparse)
  refine ⟨h.2.2.2 (by rw [harg]; rfl) hport, h.1, ?_, h.2.1, h.2.2.1⟩
  rw [h.2.1]; rfl

theorem connectByIPAddress_rejects_unparsable_witness :
    sampleLib.ParseString (JsValue.string "999.1").Utf8String = none ∧
    (ConnectByIPAddress sampleLib (sampleSdk 1 4 10 3) 0
      [JsValue.string "999.1", ofInt 27015]).completion =
        Completion.badArgs "Invalid IP address format" :=
  ⟨rfl, (connectByIPAddress_rejects_unparsable sampleLib (sampleSdk 1 4 10 3) 0
    [JsValue.string "999.1", ofInt 27015] "999.1" rfl rfl rfl).1⟩

/-- C5, as stated, fails: `getRealIdentityForFakeIP` given an unparsable
address (and a uint32 port) raises nothing; it returns null. -/
theorem getRealIdentityForFakeIP_unparsable_not_rejected :
    sampleLib.ParseString (JsValue.string "999.1").Utf8String = none ∧
    (GetRealIdentityForFakeIP sampleLib (sampleSdk 1 4 10 3) 0
      [JsValue.string "999.1", ofInt 27015]).completion = Completion.returned JsValue.null ∧
    (GetRealIdentityForFakeIP sampleLib (sampleSdk 1 4 10 3) 0
      [JsValue.string "999.1", ofInt 27015]).raisedBadArgs = false :=
  ⟨rfl, rfl, rfl⟩

/-- C5, amended: with an unparsable address string, `connectByIPAddress`
raises bad-argument before any SDK call, while `getRealIdentityForFakeIP`
(given a uint32 port) does not raise: it returns null, also before any SDK
call and leaving the SDK state untouched. -/
theorem unparsable_address_handling (lib : Lib) (sdk : Sdk σ) (st : σ)
    (info : List JsValue) (s : String) (harg : arg info 0 = JsValue.string s)
    (hparse : lib.ParseString (JsValue.string s).Utf8String = none) :
    ((ConnectByIPAddress lib sdk st info).raisedBadArgs = true ∧
      (ConnectByIPAddress lib sdk st info).trace = [] ∧
      (ConnectByIPAddress lib sdk st info).state = st) ∧
    ((arg info 1).IsUint32 = true →
      (GetRealIdentityForFakeIP lib sdk st info).completion =
        Completion.returned JsValue.null ∧
      (GetRealIdentityForFakeIP lib sdk st info).trace = [] ∧
      (GetRealIdentityForFakeIP lib sdk st info).state = st) := by
  have h := ConnectByIPAddress_parse_failure lib sdk st info (by rw [harg]; exact hparse)
  refine ⟨⟨h.1, h.2.1, h.2.2.1⟩, ?_⟩
  intro hport
  have hlen : 1 < info.length := lt_length_of_arg_ne info 1 (by
    intro h; rw [h] at hport; simp [IsUint32] at hport)
  have hl : ¬ info.length < 2 := by omega
  have hp : lib.ParseString (arg info 0).Utf8String = none := by rw [harg]; exact hparse
  have hs : (arg info 0).IsString = true := by rw [harg]; rfl
  simp [GetRealIdentityForFakeIP, hl, hs, hport, hp]

theorem unparsable_address_handling_witness :
    sampleLib.ParseString (JsValue.string "999.1").Utf8String = none ∧
    (ConnectByIPAddress sampleLib (sampleSdk 1 4 10 3) 0
      [JsValue.string "999.1", ofInt 27015]).raisedBadArgs = true ∧
    (GetRealIdentityForFakeIP sampleLib (sampleSdk 1 4 10 3) 0
      [JsValue.string "999.1", ofInt 27015]).trace = [] :=
  have h := unparsable_address_handling sampleLib (sampleSdk 1 4 10 3) 0
    [JsValue.string "999.1", ofInt 27015] "999.1" rfl rfl
  ⟨rfl, h.1.1, (h.2 rfl).2.1⟩

theorem length_pos_of_IsUint32 (info : List JsValue) (h : (arg info 0).IsUint32 = true) :
    ¬ info.length < 1 := by
  have hlen : 0 < info.length := lt_length_of_arg_ne info 0 (by
    intro h0; rw [h0] at h; simp [IsUint32] at h)
  omega

theorem ofInt_nonneg_of_eq_number {n : Int} {q : ℚ} (hn : 0 ≤ n)
    (h : ofInt n = JsValue.number q) : 0 ≤ q := by
  simp only [ofInt, JsValue.number.injEq] at h
  rw [← h]
  exact_mod_cast hn

/-- C6: for a uint32 PoP id, `getPingToDataCenter` returns null exactly when
the SDK ping is negative and otherwise the object with `ping` the SDK ping and
`viaRelayPoP` the SDK relay PoP (as a uint32); `getDirectPingToPOP` returns
null exactly when the SDK ping is negative and otherwise that ping.  Neither
returns a negative number. -/
theorem ping_queries_null_iff_negative (sdk : Sdk σ) (st : σ) (info : List JsValue)
    (hpop : (arg info 0).IsUint32 = true) :
    ((GetPingToDataCenter sdk st info).completion = Completion.returned JsValue.null ↔
      (sdk.GetPingToDataCenter st (arg info 0).Uint32Value).1.1 < 0) ∧
    (0 ≤ (sdk.GetPingToDataCenter st (arg info 0).Uint32Value).1.1 →
      (GetPingToDataCenter sdk st info).completion = Completion.returned (JsValue.object
        [("ping", ofInt (sdk.GetPingToDataCenter st (arg info 0).Uint32Value).1.1),
         ("viaRelayPoP", ofInt (((sdk.GetPingToDataCenter st (arg info 0).Uint32Value).1.2
            % 4294967296 : Nat) : Int))])) ∧
    ((GetDirectPingToPOP sdk st info).completion = Completion.returned JsValue.null ↔
      (sdk.GetDirectPingToPOP st (arg info 0).Uint32Value).1 < 0) ∧
    (0 ≤ (sdk.GetDirectPingToPOP st (arg info 0).Uint32Value).1 →
      (GetDirectPingToPOP sdk st info).completion =
        Completion.returned (ofInt (sdk.GetDirectPingToPOP st (arg info 0).Uint32Value).1)) ∧
    (∀ q : ℚ, (GetPingToDataCenter sdk st info).completion =
        Completion.returned (JsValue.number q) → 0 ≤ q) ∧
    (∀ q : ℚ, (GetDirectPingToPOP sdk st info).completion =
        Completion.returned (JsValue.number q) → 0 ≤ q) := by
  have hl := length_pos_of_IsUint32 info hpop
  refine ⟨?_, ?_, ?_, ?_, ?_, ?_⟩
  · by_cases hneg : (sdk.GetPingToDataCenter st (arg info 0).Uint32Value).1.1 < 0
    · simp [GetPingToDataCenter, hl, hpop, hneg]
    · simp [GetPingToDataCenter, hl, hpop, hneg]
  · intro hnn
    have hneg : ¬ (sdk.GetPingToDataCenter st (arg info 0).Uint32Value).1.1 < 0 := by omega
    simp [GetPingToDataCenter, hl, hpop, hneg]
  · by_cases hneg : (sdk.GetDirectPingToPOP st (arg info 0).Uint32Value).1 < 0
    · simp [GetDirectPingToPOP, hl, hpop, hneg]
    · simp [GetDirectPingToPOP, hl, hpop, hneg, ofInt]
  · intro hnn
    have hneg : ¬ (sdk.GetDirectPingToPOP st (arg info 0).Uint32Value).1 < 0 := by omega
    simp [GetDirectPingToPOP, hl, hpop, hneg]
  · intro q hq
    by_cases hneg : (sdk.GetPingToDataCenter st (arg info 0).Uint32Value).1.1 < 0
    · simp [GetPingToDataCenter, hl, hpop, hneg] at hq
    · simp [GetPingToDataCenter, hl, hpop, hneg] at hq
  · intro q hq
    by_cases hneg : (sdk.GetDirectPingToPOP st (arg info 0).Uint32Value).1 < 0
    · simp [GetDirectPingToPOP, hl, hpop, hneg] at hq
    · simp only [GetDirectPingToPOP, hl, hpop, hneg, Bool.not_true, Bool.or_false,
        decide_False, Bool.false_eq_true, ↓reduceIte, Completion.returned.injEq] at hq
      exact ofInt_nonneg_of_eq_number (by omega) hq

theorem ping_queries_null_iff_negative_witness :
    (GetPingToDataCenter (sampleSdk 1 4 10 3) 0 [ofInt 7]).completion =
      Completion.returned (JsValue.object [("ping", ofInt 10), ("viaRelayPoP", ofInt 9)]) ∧
    (GetDirectPingToPOP (sampleSdk 1 4 (-1) 3) 0 [ofInt 7]).completion =
      Completion.returned JsValue.null :=
  ⟨(ping_queries_null_iff_negative (sampleSdk 1 4 10 3) 0 [ofInt 7] rfl).2.1 (by decide),
   (ping_queries_null_iff_negative (sampleSdk 1 4 (-1) 3) 0 [ofInt 7] rfl).2.2.1.2
     (by decide)⟩

/-- C7, as stated, fails: with a negative SDK count, `getPOPCount` returns that
negative number, and `getPOPList` returns an empty list rather than null. -/
theorem getPOPCount_returns_negative_count :
    (sampleSdk 1 4 10 (-1)).GetPOPCount 0 = (-1, 1) ∧
    (GetPOPCount (sampleSdk 1 4 10 (-1)) 0 []).completion =
      Completion.returned (JsValue.number (-1)) ∧
    (GetPOPList (sampleSdk 1 4 10 (-1)) 0 []).completion =
      Completion.returned (JsValue.array []) :=
  ⟨rfl, rfl, rfl⟩

/-- C7, amended: when the SDK ping is negative, `getPingToDataCenter` and
`getDirectPingToPOP` (given a uint32 PoP id) return null.  `getPOPList` always
returns a list, never null and never a number: the empty list when the SDK
count is zero or negative (after the one `GetPOPCount` call).  `getPOPCount`
returns the SDK count unchanged, whatever its sign. -/
theorem negative_measurement_handling (sdk : Sdk σ) (st : σ) (info : List JsValue) :
    ((arg info 0).IsUint32 = true →
      (sdk.GetPingToDataCenter st (arg info 0).Uint32Value).1.1 < 0 →
      (GetPingToDataCenter sdk st info).completion = Completion.returned JsValue.null) ∧
    ((arg info 0).IsUint32 = true →
      (sdk.GetDirectPingToPOP st (arg info 0).Uint32Value).1 < 0 →
      (GetDirectPingToPOP sdk st info).completion = Completion.returned JsValue.null) ∧
    ((sdk.GetPOPCount st).1 ≤ 0 →
      (GetPOPList sdk st info).completion = Completion.returned (JsValue.array []) ∧
      (GetPOPList sdk st info).trace = [Event.call SdkCall.GetPOPCount]) ∧
    (∃ items, (GetPOPList sdk st info).completion =
      Completion.returned (JsValue.array items)) ∧
    (GetPOPCount sdk st info).completion =
      Completion.returned (ofInt (sdk.GetPOPCount st).1) := by
  refine ⟨?_, ?_, ?_, ?_, rfl⟩
  · intro hpop hneg
    have hl := length_pos_of_IsUint32 info hpop
    simp [GetPingToDataCenter, hl, hpop, hneg]
  · intro hpop hneg
    have hl := length_pos_of_IsUint32 info hpop
    simp [GetDirectPingToPOP, hl, hpop, hneg]
  · intro hc
    simp [GetPOPList, hc]
  · by_cases hc : (sdk.GetPOPCount st).1 ≤ 0
    · exact ⟨[], by simp [GetPOPList, hc]⟩
    · exact ⟨(GetPOPList sdk st info).returnedItems, by
        simp [GetPOPList, hc, Outcome.returnedItems]⟩

theorem negative_measurement_handling_witness :
    (GetPingToDataCenter (sampleSdk 1 4 (-1) 3) 0 [ofInt 7]).completion =
      Completion.returned JsValue.null ∧
    (GetPOPList (sampleSdk 1 4 10 (-2)) 0 []).trace = [Event.call SdkCall.GetPOPCount] :=
  have h := negative_measurement_handling (sampleSdk 1 4 (-1) 3) 0 [ofInt 7]
  have h2 := negative_measurement_handling (sampleSdk 1 4 10 (-2)) 0 []
  ⟨h.1 rfl (by decide), (h2.2.2.1 (by decide)).2⟩

theorem handleResult_mod (x : Nat) :
    handleResult (x % 4294967296) 0 = ofInt ((x % 4294967296 : Nat) : Int) := by
  unfold handleResult
  split
  · rename_i h
    have h0 : x % 4294967296 = 0 := by simpa using h
    simp [h0]
  · simp

theorem returned_zero_iff (x : Nat) :
    Completion.returned (ofInt ((x : Nat) : Int)) = Completion.returned (ofInt 0) ↔ x = 0 := by
  constructor
  · intro h
    have h1 := ofInt_injective (Completion.returned.inj h)
    exact_mod_cast h1
  · intro h
    rw [h]
    rfl

theorem length_ge_two_of_IsInt32 (info : List JsValue) (h : (arg info 1).IsInt32 = true) :
    ¬ info.length < 2 := by
  have hlen : 1 < info.length := lt_length_of_arg_ne info 1 (by
    intro h0; rw [h0] at h; simp [IsInt32] at h)
  omega

theorem length_pos_of_IsString (info : List JsValue) (h : (arg info 0).IsString = true) :
    ¬ info.length < 1 := by
  have hlen : 0 < info.length := lt_length_of_arg_ne info 0 (by
    intro h0; rw [h0] at h; simp [IsString] at h)
  omega

theorem length_ge_two_of_HasInstance (info : List JsValue)
    (h : (arg info 1).HasInstance = true) : ¬ info.length < 2 := by
  have hlen : 1 < info.length := lt_length_of_arg_ne info 1 (by
    intro h0; rw [h0] at h; simp [HasInstance] at h)
  omega

theorem IsObject_of_HasInstance (v : JsValue) (h : v.HasInstance = true) :
    v.IsObject = true := by
  cases v <;> first | rfl | simp [HasInstance] at h

/-- C8: with valid arguments, `createListenSocketIP`, `connectByIPAddress` and
`connectP2P` make one SDK call and return exactly the handle that call
produced, as an unsigned 32-bit integer; the returned value is 0 exactly when
that handle is the SDK's invalid-handle constant. -/
theorem returned_handle_is_sdk_handle (lib : Lib) (sdk : Sdk σ) (st : σ)
    (info : List JsValue) :
    ((arg info 0).IsInt32 = true →
      (CreateListenSocketIP sdk st info).trace = [Event.call (SdkCall.CreateListenSocketIP
        (SteamNetworkingIPAddr.Clear.setPort (arg info 0).Int32Value) 0)] ∧
      (CreateListenSocketIP sdk st info).completion = Completion.returned (ofInt
        (((sdk.CreateListenSocketIP st
          (SteamNetworkingIPAddr.Clear.setPort (arg info 0).Int32Value) 0).1
            % 4294967296 : Nat) : Int)) ∧
      ((CreateListenSocketIP sdk st info).completion = Completion.returned (ofInt 0) ↔
        (sdk.CreateListenSocketIP st
          (SteamNetworkingIPAddr.Clear.setPort (arg info 0).Int32Value) 0).1 % 4294967296
            = k_HSteamListenSocket_Invalid)) ∧
    (∀ parsed : SteamNetworkingIPAddr, (arg info 0).IsString = true →
      (arg info 1).IsInt32 = true → lib.ParseString (arg info 0).Utf8String = some parsed →
      (ConnectByIPAddress lib sdk st info).trace = [Event.call (SdkCall.ConnectByIPAddress
        (parsed.setPort (arg info 1).Int32Value) 0)] ∧
      (ConnectByIPAddress lib sdk st info).completion = Completion.returned (ofInt
        (((sdk.ConnectByIPAddress st (parsed.setPort (arg info 1).Int32Value) 0).1
          % 4294967296 : Nat) : Int)) ∧
      ((ConnectByIPAddress lib sdk st info).completion = Completion.returned (ofInt 0) ↔
        (sdk.ConnectByIPAddress st (parsed.setPort (arg info 1).Int32Value) 0).1
          % 4294967296 = k_HSteamNetConnection_Invalid)) ∧
    ((arg info 0).IsString = true → lib.IsValid (lib.steamIdOf (arg info 0)) = true →
      ∃ nVirtualPort : Int,
      (ConnectP2P lib sdk st info).trace = [Event.call (SdkCall.ConnectP2P
        (SteamNetworkingIdentity.steamID (lib.steamIdOf (arg info 0))) nVirtualPort 0)] ∧
      (ConnectP2P lib sdk st info).completion = Completion.returned (ofInt
        (((sdk.ConnectP2P st (SteamNetworkingIdentity.steamID (lib.steamIdOf (arg info 0)))
          nVirtualPort 0).1 % 4294967296 : Nat) : Int)) ∧
      ((ConnectP2P lib sdk st info).completion = Completion.returned (ofInt 0) ↔
        (sdk.ConnectP2P st (SteamNetworkingIdentity.steamID (lib.steamIdOf (arg info 0)))
          nVirtualPort 0).1 % 4294967296 = k_HSteamNetConnection_Invalid)) := by
  refine ⟨?_, ?_, ?_⟩
  · intro hport
    have hl : ¬ info.length < 1 := by
      have hlen : 0 < info.length := lt_length_of_arg_ne info 0 (by
        intro h0; rw [h0] at hport; simp [IsInt32] at hport)
      omega
    have hc : (CreateListenSocketIP sdk st info).completion = Completion.returned (ofInt
        (((sdk.CreateListenSocketIP st
          (SteamNetworkingIPAddr.Clear.setPort (arg info 0).Int32Value) 0).1
            % 4294967296 : Nat) : Int)) := by
      simp only [CreateListenSocketIP, hl, hport, k_HSteamListenSocket_Invalid,
        handleResult_mod]
      simp
    refine ⟨by simp [CreateListenSocketIP, hl, hport], hc, ?_⟩
    rw [hc, returned_zero_iff]
    rfl
  · intro parsed hstr hport hparse
    have hl := length_ge_two_of_IsInt32 info hport
    have hc : (ConnectByIPAddress lib sdk st info).completion = Completion.returned (ofInt
        (((sdk.ConnectByIPAddress st (parsed.setPort (arg info 1).Int32Value) 0).1
          % 4294967296 : Nat) : Int)) := by
      simp only [ConnectByIPAddress, hl, hstr, hport, hparse, k_HSteamNetConnection_Invalid,
        handleResult_mod]
      simp
    refine ⟨by simp [ConnectByIPAddress, hl, hstr, hport, hparse], hc, ?_⟩
    rw [hc, returned_zero_iff]
    rfl
  · intro hstr hvalid
    have hl := length_pos_of_IsString info hstr
    refine ⟨if info.length ≥ 2 && (arg info 1).IsInt32 then (arg info 1).Int32Value else 0,
      ?_⟩
    have hc : (ConnectP2P lib sdk st info).completion = Completion.returned (ofInt
        (((sdk.ConnectP2P st (SteamNetworkingIdentity.steamID (lib.steamIdOf (arg info 0)))
          (if info.length ≥ 2 && (arg info 1).IsInt32 then (arg info 1).Int32Value else 0)
          0).1 % 4294967296 : Nat) : Int)) := by
      simp only [ConnectP2P, hl, hstr, hvalid, k_HSteamNetConnection_Invalid,
        handleResult_mod, SteamNetworkingIdentity.SetSteamID]
      simp
    refine ⟨by simp [ConnectP2P, hl, hstr, hvalid, SteamNetworkingIdentity.SetSteamID],
      hc, ?_⟩
    rw [hc, returned_zero_iff]
    rfl

theorem returned_handle_is_sdk_handle_witness :
    (CreateListenSocketIP (sampleSdk 1 4 10 3) 0 [ofInt 27015]).completion =
      Completion.returned (ofInt 4) ∧
    (ConnectByIPAddress sampleLib (sampleSdk 1 0 10 3) 0
      [JsValue.string "127.0.0.1", ofInt 27015]).completion = Completion.returned (ofInt 0) :=
  have h := returned_handle_is_sdk_handle sampleLib (sampleSdk 1 4 10 3) 0 [ofInt 27015]
  have h2 := returned_handle_is_sdk_handle sampleLib (sampleSdk 1 0 10 3) 0
    [JsValue.string "127.0.0.1", ofInt 27015]
  ⟨(h.1 rfl).2.1, (h2.2.1 _ rfl rfl rfl).2.1⟩

/-- C9: for every well-formed call of `sendMessageToUser` (string identity
that is valid, buffer payload), `sendMessageToConnection` (uint32 handle,
buffer payload), `acceptConnection` and `flushMessagesOnConnection` (uint32
handle), the binding does not raise and returns a boolean that is true exactly
when the result code of its SDK call is `k_EResultOK`, whatever that code
is. -/
theorem sdk_result_code_becomes_boolean (lib : Lib) (sdk : Sdk σ) (st : σ)
    (info : List JsValue) :
    ((arg info 0).IsString = true → lib.IsValid (lib.steamIdOf (arg info 0)) = true →
      (arg info 1).HasInstance = true →
      ∃ b : Bool, (SendMessageToUser lib sdk st info).completion =
          Completion.returned (JsValue.boolean b) ∧
        (b = true ↔ (sdk.SendMessageToUser st
          (SteamNetworkingIdentity.steamID (lib.steamIdOf (arg info 0))) (arg info 1).Data
          ((arg info 1).Length % 4294967296) (nSendFlags info)
          (nRemoteVirtualPort info)).1 = k_EResultOK)) ∧
    ((arg info 0).IsUint32 = true → (arg info 1).HasInstance = true →
      ∃ b : Bool, (SendMessageToConnection sdk st info).completion =
          Completion.returned (JsValue.boolean b) ∧
        (b = true ↔ (sdk.SendMessageToConnection st (arg info 0).Uint32Value
          (arg info 1).Data ((arg info 1).Length % 4294967296)
          (nSendFlags info)).1 = k_EResultOK)) ∧
    ((arg info 0).IsUint32 = true →
      ∃ b : Bool, (AcceptConnection sdk st info).completion =
          Completion.returned (JsValue.boolean b) ∧
        (b = true ↔ (sdk.AcceptConnection st (arg info 0).Uint32Value).1 = k_EResultOK)) ∧
    ((arg info 0).IsUint32 = true →
      ∃ b : Bool, (FlushMessagesOnConnection sdk st info).completion =
          Completion.returned (JsValue.boolean b) ∧
        (b = true ↔
          (sdk.FlushMessagesOnConnection st (arg info 0).Uint32Value).1 = k_EResultOK)) := by
  refine ⟨?_, ?_, ?_, ?_⟩
  · intro hstr hvalid hbuf
    have hl := length_ge_two_of_HasInstance info hbuf
    have hobj := IsObject_of_HasInstance _ hbuf
    refine ⟨_, ?_, beq_iff_eq⟩
    simp [SendMessageToUser, hl, hstr, hvalid, hbuf, hobj,
      SteamNetworkingIdentity.SetSteamID]
  · intro hu hbuf
    have hl := length_ge_two_of_HasInstance info hbuf
    have hobj := IsObject_of_HasInstance _ hbuf
    refine ⟨_, ?_, beq_iff_eq⟩
    simp [SendMessageToConnection, hl, hu, hbuf, hobj]
  · intro hu
    have hl := length_pos_of_IsUint32 info hu
    refine ⟨_, ?_, beq_iff_eq⟩
    simp [AcceptConnection, hl, hu]
  · intro hu
    have hl := length_pos_of_IsUint32 info hu
    refine ⟨_, ?_, beq_iff_eq⟩
    simp [FlushMessagesOnConnection, hl, hu]

theorem sdk_result_code_becomes_boolean_witness :
    (∃ b : Bool, (AcceptConnection (sampleSdk 2 4 10 3) 0 [ofInt 4]).completion =
        Completion.returned (JsValue.boolean b) ∧
      (b = true ↔ ((sampleSdk 2 4 10 3).AcceptConnection 0 (ofInt 4).Uint32Value).1 =
        k_EResultOK)) ∧
    (AcceptConnection (sampleSdk 2 4 10 3) 0 [ofInt 4]).completion =
      Completion.returned (JsValue.boolean false) :=
  ⟨(sdk_result_code_becomes_boolean sampleLib (sampleSdk 2 4 10 3) 0 [ofInt 4]).2.2.1 rfl,
    rfl⟩

/-- C10: each socket binding that takes a connection or listen-socket handle
(`acceptConnection`, `closeConnection`, `closeListenSocket`,
`sendMessageToConnection`, `receiveMessagesOnConnection`,
`flushMessagesOnConnection`, `getConnectionInfo`, `getQuickConnectionStatus`,
`getDetailedConnectionStatus`) raises bad-argument without any SDK call when
its first argument is missing or is not an unsigned 32-bit integer; so does
`sendMessageToConnection` when its payload is missing or is not a buffer. -/
theorem bad_handle_rejected (sdk : Sdk σ) (st : σ) (info : List JsValue) :
    ((arg info 0).IsUint32 = false →
      ∀ o ∈ [AcceptConnection sdk st info, CloseConnection sdk st info,
          CloseListenSocket sdk st info, SendMessageToConnection sdk st info,
          ReceiveMessagesOnConnection sdk st info, FlushMessagesOnConnection sdk st info,
          GetConnectionInfo sdk st info, GetQuickConnectionStatus sdk st info,
          GetDetailedConnectionStatus sdk st info],
        o.raisedBadArgs = true ∧ o.trace = [] ∧ o.state = st) ∧
    ((arg info 1).HasInstance = false →
      (SendMessageToConnection sdk st info).raisedBadArgs = true ∧
      (SendMessageToConnection sdk st info).trace = [] ∧
      (SendMessageToConnection sdk st info).state = st) := by
  refine ⟨?_, ?_⟩
  · intro hu o ho
    simp only [List.mem_cons, List.mem_singleton, List.not_mem_nil, or_false] at ho
    rcases ho with h | h | h | h | h | h | h | h | h <;> subst h
    · simp [AcceptConnection, hu, THROW_BAD_ARGS, Outcome.raisedBadArgs]
    · simp [CloseConnection, hu, THROW_BAD_ARGS, Outcome.raisedBadArgs]
    · simp [CloseListenSocket, hu, THROW_BAD_ARGS, Outcome.raisedBadArgs]
    · simp [SendMessageToConnection, hu, THROW_BAD_ARGS, Outcome.raisedBadArgs]
    · simp [ReceiveMessagesOnConnection, hu, THROW_BAD_ARGS, Outcome.raisedBadArgs]
    · simp [FlushMessagesOnConnection, hu, THROW_BAD_ARGS, Outcome.raisedBadArgs]
    · simp [GetConnectionInfo, hu, THROW_BAD_ARGS, Outcome.raisedBadArgs]
    · simp [GetQuickConnectionStatus, hu, THROW_BAD_ARGS, Outcome.raisedBadArgs]
    · simp [GetDetailedConnectionStatus, hu, THROW_BAD_ARGS, Outcome.raisedBadArgs]
  · intro hbuf
    unfold SendMessageToConnection
    split
    · simp [THROW_BAD_ARGS, Outcome.raisedBadArgs]
    · simp [hbuf, THROW_BAD_ARGS, Outcome.raisedBadArgs]

theorem bad_handle_rejected_witness :
    (arg [JsValue.string "4"] 0).IsUint32 = false ∧
    (CloseListenSocket (sampleSdk 1 4 10 3) 0 [JsValue.string "4"]).raisedBadArgs = true ∧
    (SendMessageToConnection (sampleSdk 1 4 10 3) 0 [ofInt 4]).trace = [] :=
  have h := bad_handle_rejected (sampleSdk 1 4 10 3) 0 [JsValue.string "4"]
  have h2 := bad_handle_rejected (sampleSdk 1 4 10 3) 0 [ofInt 4]
  ⟨rfl, (h.1 rfl _ (by simp)).1, (h2.2 rfl).2.1⟩

theorem IsInt32_false_of_length_le (info : List JsValue) (i : Nat) (h : info.length ≤ i) :
    (arg info i).IsInt32 = false := by
  rw [arg_of_length_le info i h]; rfl

/-- C11: in `sendMessageToUser` and `sendMessageToConnection` the send flags
are the Reliable constant when the third argument is absent or is not an
int32, and are the argument itself when it is an int32; the flags so computed
are the ones passed in the SDK send call. -/
theorem send_flags_default_reliable (lib : Lib) (sdk : Sdk σ) (st : σ) (info : List JsValue) :
    (info.length ≤ 2 → nSendFlags info = k_nSteamNetworkingSend_Reliable) ∧
    ((arg info 2).IsInt32 = false → nSendFlags info = k_nSteamNetworkingSend_Reliable) ∧
    (∀ n : Int, -2147483648 ≤ n → n ≤ 2147483647 → arg info 2 = ofInt n →
      nSendFlags info = n) ∧
    ((arg info 0).IsString = true → lib.IsValid (lib.steamIdOf (arg info 0)) = true →
      (arg info 1).HasInstance = true →
      (SendMessageToUser lib sdk st info).trace = [Event.call (SdkCall.SendMessageToUser
        (SteamNetworkingIdentity.steamID (lib.steamIdOf (arg info 0))) (arg info 1).Data
        ((arg info 1).Length % 4294967296) (nSendFlags info) (nRemoteVirtualPort info))]) ∧
    ((arg info 0).IsUint32 = true → (arg info 1).HasInstance = true →
      (SendMessageToConnection sdk st info).trace = [Event.call
        (SdkCall.SendMessageToConnection (arg info 0).Uint32Value (arg info 1).Data
          ((arg info 1).Length % 4294967296) (nSendFlags info))]) := by
  refine ⟨?_, ?_, ?_, ?_, ?_⟩
  · intro hlen
    have h := IsInt32_false_of_length_le info 2 hlen
    simp [nSendFlags, h]
  · intro h
    simp [nSendFlags, h]
  · intro n h1 h2 harg
    have hlen : 2 < info.length := lt_length_of_arg_ne info 2 (by rw [harg]; simp [ofInt])
    have hl : 3 ≤ info.length := hlen
    have hi : (ofInt n).IsInt32 = true := (IsInt32_ofInt n).2 ⟨h1, h2⟩
    simp [nSendFlags, harg, hi, hl, Int32Value_ofInt n h1 h2]
  · intro hstr hvalid hbuf
    have hl := length_ge_two_of_HasInstance info hbuf
    have hobj := IsObject_of_HasInstance _ hbuf
    simp [SendMessageToUser, hl, hstr, hvalid, hbuf, hobj, SteamNetworkingIdentity.SetSteamID]
  · intro hu hbuf
    have hl := length_ge_two_of_HasInstance info hbuf
    have hobj := IsObject_of_HasInstance _ hbuf
    simp [SendMessageToConnection, hl, hu, hbuf, hobj]

theorem send_flags_default_reliable_witness :
    nSendFlags [ofInt 4, JsValue.buffer [1, 2]] = k_nSteamNetworkingSend_Reliable ∧
    nSendFlags [ofInt 4, JsValue.buffer [1, 2], ofInt 5] = 5 ∧
    (SendMessageToConnection (sampleSdk 1 4 10 3) 0
      [ofInt 4, JsValue.buffer [1, 2], JsValue.string "x"]).trace =
      [Event.call (SdkCall.SendMessageToConnection 4 [1, 2] 2 8)] :=
  have h := send_flags_default_reliable sampleLib (sampleSdk 1 4 10 3) 0
    [ofInt 4, JsValue.buffer [1, 2]]
  have h2 := send_flags_default_reliable sampleLib (sampleSdk 1 4 10 3) 0
    [ofInt 4, JsValue.buffer [1, 2], ofInt 5]
  have h3 := send_flags_default_reliable sampleLib (sampleSdk 1 4 10 3) 0
    [ofInt 4, JsValue.buffer [1, 2], JsValue.string "x"]
  ⟨h.1 (by decide), h2.2.2.1 5 (by decide) (by decide) rfl, h3.2.2.2.2 rfl rfl⟩

/-- C18, as stated, fails: a count argument that is present but is not an
int32 (here a string) is not rejected; both receive bindings go on with the
default count 32. -/
theorem wrong_type_count_not_rejected :
    (arg [ofInt 4, JsValue.string "5"] 1).IsInt32 = false ∧
    (ReceiveMessagesOnChannel (sampleSdk 1 4 10 3) 0
      [ofInt 4, JsValue.string "5"]).raisedBadArgs = false ∧
    (ReceiveMessagesOnConnection (sampleSdk 1 4 10 3) 0
      [ofInt 4, JsValue.string "5"]).raisedBadArgs = false ∧
    sdkCalls (ReceiveMessagesOnConnection (sampleSdk 1 4 10 3) 0
      [ofInt 4, JsValue.string "5"]).trace = [SdkCall.ReceiveMessagesOnConnection 4 32] :=
  ⟨rfl, rfl, rfl, rfl⟩

/-- C18, amended: the receive bindings are lenient on both counts.  A count
argument that is not an int32 (absent or of another type) and an int32 count
outside `[1,256]` are both replaced by the default 32, and neither makes the
binding raise: `receiveMessagesOnChannel` never raises, and
`receiveMessagesOnConnection` raises only for its handle argument. -/
theorem count_argument_never_rejected (sdk : Sdk σ) (st : σ) (info : List JsValue) :
    ((arg info 1).IsInt32 = false → nMaxMessages info = 32) ∧
    (∀ n : Int, -2147483648 ≤ n → n ≤ 2147483647 → arg info 1 = ofInt n →
      n < 1 ∨ 256 < n → nMaxMessages info = 32) ∧
    (ReceiveMessagesOnChannel sdk st info).raisedBadArgs = false ∧
    ((ReceiveMessagesOnConnection sdk st info).raisedBadArgs = true ↔
      (arg info 0).IsUint32 = false) ∧
    ((arg info 0).IsUint32 = true →
      sdkCalls (ReceiveMessagesOnConnection sdk st info).trace =
        [SdkCall.ReceiveMessagesOnConnection (arg info 0).Uint32Value (nMaxMessages info)]) := by
  refine ⟨?_, ?_, ?_, ?_, ?_⟩
  · intro h
    simp [nMaxMessages, h]
  · intro n h1 h2 harg hout
    rw [nMaxMessages_ofInt info n harg h1 h2, if_pos hout]
  · simp [ReceiveMessagesOnChannel, Outcome.raisedBadArgs]
  · by_cases hu : (arg info 0).IsUint32 = true
    · have hl := length_pos_of_IsUint32 info hu
      simp [ReceiveMessagesOnConnection, hl, hu, Outcome.raisedBadArgs]
    · simp [ReceiveMessagesOnConnection, hu, THROW_BAD_ARGS, Outcome.raisedBadArgs]
  · intro hu
    have hl := length_pos_of_IsUint32 info hu
    simp [ReceiveMessagesOnConnection, hl, hu, sdkCalls, sdkCalls_messageLoopEvents]

theorem count_argument_never_rejected_witness :
    nMaxMessages [ofInt 4, JsValue.string "5"] = 32 ∧
    nMaxMessages [ofInt 4, ofInt 1000] = 32 ∧
    sdkCalls (ReceiveMessagesOnConnection (sampleSdk 1 4 10 3) 0
      [ofInt 4, JsValue.boolean true]).trace = [SdkCall.ReceiveMessagesOnConnection 4 32] :=
  have h := count_argument_never_rejected (sampleSdk 1 4 10 3) 0 [ofInt 4, JsValue.string "5"]
  have h2 := count_argument_never_rejected (sampleSdk 1 4 10 3) 0 [ofInt 4, ofInt 1000]
  have h3 := count_argument_never_rejected (sampleSdk 1 4 10 3) 0
    [ofInt 4, JsValue.boolean true]
  ⟨h.1 rfl, h2.2.1 1000 (by decide) (by decide) rfl (by decide), h3.2.2.2.2 rfl⟩

theorem setPort_m_port (a : SteamNetworkingIPAddr) (p : Int) :
    ((a.setPort p).m_port : Int) = p % 65536 ∧ (a.setPort p).m_port < 65536 := by
  simp only [SteamNetworkingIPAddr.setPort]
  omega

theorem setPort_add (a : SteamNetworkingIPAddr) (p : Int) :
    a.setPort (p + 65536) = a.setPort p := by
  simp [SteamNetworkingIPAddr.setPort]

theorem GetRealIdentityForFakeIP_parsed (lib : Lib) (sdk : Sdk σ) (st : σ)
    (info : List JsValue) (parsed : SteamNetworkingIPAddr)
    (hs : (arg info 0).IsString = true) (hu : (arg info 1).IsUint32 = true)
    (hparse : lib.ParseString (arg info 0).Utf8String = some parsed) :
    (GetRealIdentityForFakeIP lib sdk st info).raisedBadArgs = false ∧
    (GetRealIdentityForFakeIP lib sdk st info).trace = [Event.call
      (SdkCall.GetRealIdentityForFakeIP
        { parsed with m_port := (arg info 1).Uint32Value % 65536 })] := by
  have hlen : 1 < info.length := lt_length_of_arg_ne info 1 (by
    intro h0; rw [h0] at hu; simp [IsUint32] at hu)
  have hl : ¬ info.length < 2 := by omega
  by_cases hr : ((sdk.GetRealIdentityForFakeIP st
      { parsed with m_port := (arg info 1).Uint32Value % 65536 }).1.1 != k_EResultOK) = true
  · simp [GetRealIdentityForFakeIP, hl, hs, hu, hparse, hr, Outcome.raisedBadArgs]
  · rcases hid : (sdk.GetRealIdentityForFakeIP st
        { parsed with m_port := (arg info 1).Uint32Value % 65536 }).1.2.GetSteamID with _ | id
    · simp [GetRealIdentityForFakeIP, hl, hs, hu, hparse, hr, hid, Outcome.raisedBadArgs]
    · simp [GetRealIdentityForFakeIP, hl, hs, hu, hparse, hr, hid, Outcome.raisedBadArgs]

/-- C19: ports are not range-checked and are cut to 16 bits.  Every int32 port
`p` given to `createListenSocketIP` or `connectByIPAddress` (and every uint32
port given to `getRealIdentityForFakeIP`) is accepted without a bad-argument
failure, also when negative or above 65535, and the port in the address handed
to the SDK is `p mod 65536`; so `p` and `p + 65536` lead to the same SDK call
and the same outcome. -/
theorem port_truncated_to_16_bits (lib : Lib) (sdk : Sdk σ) (st : σ) (ip : JsValue)
    (parsed : SteamNetworkingIPAddr) (rest : List JsValue) (p : Int)
    (hip : ip.IsString = true) (hparse : lib.ParseString ip.Utf8String = some parsed) :
    (-2147483648 ≤ p → p ≤ 2147483647 →
      (CreateListenSocketIP sdk st (ofInt p :: rest)).raisedBadArgs = false ∧
      (∃ a : SteamNetworkingIPAddr, (a.m_port : Int) = p % 65536 ∧
        (CreateListenSocketIP sdk st (ofInt p :: rest)).trace =
          [Event.call (SdkCall.CreateListenSocketIP a 0)]) ∧
      (ConnectByIPAddress lib sdk st (ip :: ofInt p :: rest)).raisedBadArgs = false ∧
      (∃ a : SteamNetworkingIPAddr, (a.m_port : Int) = p % 65536 ∧
        (ConnectByIPAddress lib sdk st (ip :: ofInt p :: rest)).trace =
          [Event.call (SdkCall.ConnectByIPAddress a 0)]) ∧
      (p + 65536 ≤ 2147483647 →
        CreateListenSocketIP sdk st (ofInt (p + 65536) :: rest) =
          CreateListenSocketIP sdk st (ofInt p :: rest) ∧
        ConnectByIPAddress lib sdk st (ip :: ofInt (p + 65536) :: rest) =
          ConnectByIPAddress lib sdk st (ip :: ofInt p :: rest))) ∧
    (0 ≤ p → p ≤ 4294967295 →
      (GetRealIdentityForFakeIP lib sdk st (ip :: ofInt p :: rest)).raisedBadArgs = false ∧
      (∃ a : SteamNetworkingIPAddr, (a.m_port : Int) = p % 65536 ∧
        sdkCalls (GetRealIdentityForFakeIP lib sdk st (ip :: ofInt p :: rest)).trace =
          [SdkCall.GetRealIdentityForFakeIP a]) ∧
      (p + 65536 ≤ 4294967295 →
        GetRealIdentityForFakeIP lib sdk st (ip :: ofInt (p + 65536) :: rest) =
          GetRealIdentityForFakeIP lib sdk st (ip :: ofInt p :: rest))) := by
  refine ⟨?_, ?_⟩
  · intro h1 h2
    have hi : (ofInt p).IsInt32 = true := (IsInt32_ofInt p).2 ⟨h1, h2⟩
    have hv := Int32Value_ofInt p h1 h2
    have hl2 : ¬ (rest.length + 1 + 1 < 2) := by omega
    refine ⟨?_, ?_, ?_, ?_, ?_⟩
    · simp [CreateListenSocketIP, arg, hi, Outcome.raisedBadArgs]
    · refine ⟨SteamNetworkingIPAddr.Clear.setPort p, (setPort_m_port _ p).1, ?_⟩
      simp [CreateListenSocketIP, arg, hi, hv]
    · simp [ConnectByIPAddress, arg, hi, hip, hparse, hl2, Outcome.raisedBadArgs]
    · refine ⟨parsed.setPort p, (setPort_m_port _ p).1, ?_⟩
      simp [ConnectByIPAddress, arg, hi, hv, hip, hparse, hl2]
    · intro h3
      have hi' : (ofInt (p + 65536)).IsInt32 = true :=
        (IsInt32_ofInt _).2 ⟨by omega, h3⟩
      have hv' := Int32Value_ofInt (p + 65536) (by omega) h3
      constructor
      · simp [CreateListenSocketIP, arg, hi, hv, hi', hv', setPort_add]
      · simp [ConnectByIPAddress, arg, hi, hv, hi', hv', hip, hparse, hl2, setPort_add]
  · intro h1 h2
    have hi : (ofInt p).IsUint32 = true := (IsUint32_ofInt p).2 ⟨h1, h2⟩
    have hv := Uint32Value_ofInt p h1 h2
    have hl2 : ¬ (rest.length + 1 + 1 < 2) := by omega
    have hp := GetRealIdentityForFakeIP_parsed lib sdk st (ip :: ofInt p :: rest) parsed
      hip hi hparse
    refine ⟨hp.1, ?_, ?_⟩
    · refine ⟨{ parsed with m_port := (ofInt p).Uint32Value % 65536 }, by
        simp only; omega, ?_⟩
      rw [hp.2]
      rfl
    · intro h3
      have hi' : (ofInt (p + 65536)).IsUint32 = true :=
        (IsUint32_ofInt _).2 ⟨by omega, h3⟩
      have hv' := Uint32Value_ofInt (p + 65536) (by omega) h3
      have hmod : (ofInt (p + 65536)).Uint32Value % 65536 = (ofInt p).Uint32Value % 65536 := by
        omega
      simp [GetRealIdentityForFakeIP, arg, hi, hi', hip, hparse, hl2, hmod]

theorem port_truncated_to_16_bits_witness :
    (CreateListenSocketIP (sampleSdk 1 4 10 3) 0 [ofInt (-1)]).trace =
      [Event.call (SdkCall.CreateListenSocketIP
        { m_ipv6 := List.replicate 16 0, m_port := 65535 } 0)] ∧
    ConnectByIPAddress sampleLib (sampleSdk 1 4 10 3) 0
        [JsValue.string "127.0.0.1", ofInt (27015 + 65536)] =
      ConnectByIPAddress sampleLib (sampleSdk 1 4 10 3) 0
        [JsValue.string "127.0.0.1", ofInt 27015] ∧
    (GetRealIdentityForFakeIP sampleLib (sampleSdk 1 4 10 3) 0
      [JsValue.string "127.0.0.1", ofInt 70000]).raisedBadArgs = false :=
  have h := port_truncated_to_16_bits sampleLib (sampleSdk 1 4 10 3) 0
    (JsValue.string "127.0.0.1") _ [] 27015 rfl rfl
  have h2 := port_truncated_to_16_bits sampleLib (sampleSdk 1 4 10 3) 0
    (JsValue.string "127.0.0.1") _ [] 70000 rfl rfl
  ⟨rfl, ((h.1 (by decide) (by decide)).2.2.2.2 (by decide)).2,
    (h2.2 (by decide) (by decide)).1⟩

/-- C16: `getLocalTimestamp` returns the SDK's microsecond timestamp converted
to a `double` and divided by 1000 (exactly `t / 1000` when no rounding occurs),
and since rounding to a `double` is monotone the conversion preserves order:
when two consecutive calls read SDK timestamps `t1 ≤ t2`, the returned
numbers satisfy `result1 ≤ result2`. -/
theorem timestamp_order_preserving (lib : Lib) (sdk : Sdk σ) (st : σ)
    (info1 info2 : List JsValue) (hmono : Monotone lib.toDouble)
    (hclock : (sdk.GetLocalTimestamp st).1 ≤
      (sdk.GetLocalTimestamp (sdk.GetLocalTimestamp st).2).1) :
    ∃ result1 result2 : ℚ,
      (GetLocalTimestamp lib sdk st info1).completion =
        Completion.returned (JsValue.number result1) ∧
      (GetLocalTimestamp lib sdk (GetLocalTimestamp lib sdk st info1).state info2).completion =
        Completion.returned (JsValue.number result2) ∧
      result1 = lib.toDouble (lib.toDouble ((sdk.GetLocalTimestamp st).1 : ℚ) / 1000) ∧
      (lib.toDouble ((sdk.GetLocalTimestamp st).1 : ℚ) = ((sdk.GetLocalTimestamp st).1 : ℚ) →
        lib.toDouble (((sdk.GetLocalTimestamp st).1 : ℚ) / 1000) =
          ((sdk.GetLocalTimestamp st).1 : ℚ) / 1000 →
        result1 = ((sdk.GetLocalTimestamp st).1 : ℚ) / 1000) ∧
      result1 ≤ result2 := by
  refine ⟨lib.toDouble (lib.toDouble ((sdk.GetLocalTimestamp st).1 : ℚ) / 1000),
    lib.toDouble (lib.toDouble
      ((sdk.GetLocalTimestamp (sdk.GetLocalTimestamp st).2).1 : ℚ) / 1000),
    rfl, rfl, rfl, ?_, ?_⟩
  · intro h1 h2
    rw [h1, h2]
  · apply hmono
    apply div_le_div_of_nonneg_right _ (by norm_num)
    apply hmono
    exact_mod_cast hclock

theorem timestamp_order_preserving_witness :
    ∃ result1 result2 : ℚ,
      (GetLocalTimestamp sampleLib (sampleSdk 1 4 10 3) 5 []).completion =
        Completion.returned (JsValue.number result1) ∧
      (GetLocalTimestamp sampleLib (sampleSdk 1 4 10 3)
        (GetLocalTimestamp sampleLib (sampleSdk 1 4 10 3) 5 []).state []).completion =
        Completion.returned (JsValue.number result2) ∧
      result1 = sampleLib.toDouble (sampleLib.toDouble
        (((sampleSdk 1 4 10 3).GetLocalTimestamp 5).1 : ℚ) / 1000) ∧
      (sampleLib.toDouble (((sampleSdk 1 4 10 3).GetLocalTimestamp 5).1 : ℚ) =
          (((sampleSdk 1 4 10 3).GetLocalTimestamp 5).1 : ℚ) →
        sampleLib.toDouble ((((sampleSdk 1 4 10 3).GetLocalTimestamp 5).1 : ℚ) / 1000) =
          (((sampleSdk 1 4 10 3).GetLocalTimestamp 5).1 : ℚ) / 1000 →
        result1 = (((sampleSdk 1 4 10 3).GetLocalTimestamp 5).1 : ℚ) / 1000) ∧
      result1 ≤ result2 :=
  timestamp_order_preserving sampleLib (sampleSdk 1 4 10 3) 5 [] []
    (fun _ _ h => h) (by decide)

/-- C17, as stated, fails for `getPOPList`: with a positive SDK count it calls
the SDK twice, `GetPOPCount` and then `GetPOPList`. -/
theorem getPOPList_makes_two_sdk_calls :
    (GetPOPList (sampleSdk 1 4 10 3) 0 []).raisedBadArgs = false ∧
    sdkCalls (GetPOPList (sampleSdk 1 4 10 3) 0 []).trace =
      [SdkCall.GetPOPCount, SdkCall.GetPOPList 3] ∧
    (sdkCalls (GetPOPList (sampleSdk 1 4 10 3) 0 []).trace).length = 2 :=
  ⟨rfl, rfl, rfl⟩

/-- C17, amended: every binding other than `getPOPList` makes no SDK interface
call when it rejects its arguments and exactly one when it accepts them (the
receive bindings release each received message besides);
`getRealIdentityForFakeIP` also makes none when the address does not parse.
`getPOPList` calls `GetPOPCount`, and then `GetPOPList` as a second call when
the count is positive. -/
theorem sdk_calls_per_operation (lib : Lib) (sdk : Sdk σ) (st : σ) (info : List JsValue) :
    (∀ o ∈ [SendMessageToUser lib sdk st info, ReceiveMessagesOnChannel sdk st info,
        AcceptSessionWithUser lib sdk st info, CloseSessionWithUser lib sdk st info,
        CloseChannelWithUser lib sdk st info, GetSessionConnectionInfo lib sdk st info,
        CreateListenSocketIP sdk st info, ConnectByIPAddress lib sdk st info,
        ConnectP2P lib sdk st info, AcceptConnection sdk st info,
        CloseConnection sdk st info, CloseListenSocket sdk st info,
        SendMessageToConnection sdk st info, ReceiveMessagesOnConnection sdk st info,
        FlushMessagesOnConnection sdk st info, GetConnectionInfo sdk st info,
        GetQuickConnectionStatus sdk st info, GetDetailedConnectionStatus sdk st info,
        RunCallbacks sdk st info, GetLocalTimestamp lib sdk st info,
        SetGlobalConfigValueInt32 sdk st info, SetGlobalConfigValueFloat lib sdk st info,
        SetGlobalConfigValueString sdk st info, SetConnectionConfigValueInt32 sdk st info,
        SetConnectionConfigValueFloat lib sdk st info,
        SetConnectionConfigValueString sdk st info,
        SetDebugOutputFunction sdk st info, IsFakeIPv4 sdk st info,
        GetIPv4FakeIPType sdk st info, CheckPingDataUpToDate lib sdk st info,
        GetPingToDataCenter sdk st info, GetDirectPingToPOP sdk st info,
        GetPOPCount sdk st info],
      (o.raisedBadArgs = true → o.trace = []) ∧
      (o.raisedBadArgs = false → (sdkCalls o.trace).length = 1)) ∧
    (((GetRealIdentityForFakeIP lib sdk st info).raisedBadArgs = true ∨
        lib.ParseString (arg info 0).Utf8String = none →
      (GetRealIdentityForFakeIP lib sdk st info).trace = []) ∧
     ((GetRealIdentityForFakeIP lib sdk st info).raisedBadArgs = false →
        lib.ParseString (arg info 0).Utf8String ≠ none →
      (sdkCalls (GetRealIdentityForFakeIP lib sdk st info).trace).length = 1)) ∧
    (GetPOPList sdk st info).raisedBadArgs = false ∧
    ((sdk.GetPOPCount st).1 ≤ 0 →
      sdkCalls (GetPOPList sdk st info).trace = [SdkCall.GetPOPCount]) ∧
    (0 < (sdk.GetPOPCount st).1 →
      sdkCalls (GetPOPList sdk st info).trace =
        [SdkCall.GetPOPCount, SdkCall.GetPOPList (sdk.GetPOPCount st).1]) := by
  refine ⟨?_, ?_, ?_, ?_, ?_⟩
  · intro o ho
    simp only [List.mem_cons, List.mem_singleton, List.not_mem_nil, or_false] at ho
    rcases ho with rfl | rfl | rfl | rfl | rfl | rfl | rfl | rfl | rfl | rfl | rfl | rfl |
      rfl | rfl | rfl | rfl | rfl | rfl | rfl | rfl | rfl | rfl | rfl | rfl | rfl | rfl |
      rfl | rfl | rfl | rfl | rfl | rfl | rfl
    all_goals
      simp only [SendMessageToUser, ReceiveMessagesOnChannel, AcceptSessionWithUser,
        CloseSessionWithUser, CloseChannelWithUser, GetSessionConnectionInfo,
        CreateListenSocketIP, ConnectByIPAddress, ConnectP2P, AcceptConnection,
        CloseConnection, CloseListenSocket, SendMessageToConnection,
        ReceiveMessagesOnConnection, FlushMessagesOnConnection, GetConnectionInfo,
        GetQuickConnectionStatus, GetDetailedConnectionStatus, RunCallbacks,
        GetLocalTimestamp, SetGlobalConfigValueInt32, SetGlobalConfigValueFloat,
        SetGlobalConfigValueString, SetConnectionConfigValueInt32,
        SetConnectionConfigValueFloat, SetConnectionConfigValueString,
        SetDebugOutputFunction, IsFakeIPv4, GetIPv4FakeIPType, CheckPingDataUpToDate,
        GetPingToDataCenter, GetDirectPingToPOP, GetPOPCount, THROW_BAD_ARGS]
      repeat' split
      all_goals simp [Outcome.raisedBadArgs, sdkCalls, sdkCalls_messageLoopEvents]
  · constructor
    · intro h
      by_cases hg : (info.length < 2 || !(arg info 0).IsString || !(arg info 1).IsUint32) = true
      · simp [GetRealIdentityForFakeIP, hg, THROW_BAD_ARGS]
      · rcases hp : lib.ParseString (arg info 0).Utf8String with _ | parsed
        · simp [GetRealIdentityForFakeIP, hg, hp]
        · simp only [Bool.or_eq_true, Bool.not_eq_true', decide_eq_true_eq, not_or,
            Bool.not_eq_false] at hg
          have hpar := GetRealIdentityForFakeIP_parsed lib sdk st info parsed hg.1.2 hg.2 hp
          rcases h with h | h
          · rw [hpar.1] at h
            exact absurd h (by decide)
          · rw [hp] at h
            exact absurd h (by simp)
    · intro hr hp
      by_cases hg : (info.length < 2 || !(arg info 0).IsString || !(arg info 1).IsUint32) = true
      · simp [GetRealIdentityForFakeIP, hg, THROW_BAD_ARGS, Outcome.raisedBadArgs] at hr
      · rcases hq : lib.ParseString (arg info 0).Utf8String with _ | parsed
        · exact absurd hq hp
        · simp only [Bool.or_eq_true, Bool.not_eq_true', decide_eq_true_eq, not_or,
            Bool.not_eq_false] at hg
          have hpar := GetRealIdentityForFakeIP_parsed lib sdk st info parsed hg.1.2 hg.2 hq
          rw [hpar.2]
          rfl
  · by_cases hc : (sdk.GetPOPCount st).1 ≤ 0
    · simp [GetPOPList, hc, Outcome.raisedBadArgs]
    · simp [GetPOPList, hc, Outcome.raisedBadArgs]
  · intro hc
    simp [GetPOPList, hc, sdkCalls]
  · intro hc
    have hn : ¬ (sdk.GetPOPCount st).1 ≤ 0 := by omega
    simp [GetPOPList, hn, sdkCalls]

theorem sdk_calls_per_operation_witness :
    (sdkCalls (CloseListenSocket (sampleSdk 1 4 10 3) 0 [ofInt 4]).trace).length = 1 ∧
    (CloseListenSocket (sampleSdk 1 4 10 3) 0 []).trace = [] ∧
    sdkCalls (GetPOPList (sampleSdk 1 4 10 0) 0 []).trace = [SdkCall.GetPOPCount] :=
  have h := sdk_calls_per_operation sampleLib (sampleSdk 1 4 10 3) 0 [ofInt 4]
  have h2 := sdk_calls_per_operation sampleLib (sampleSdk 1 4 10 3) 0 []
  have h3 := sdk_calls_per_operation sampleLib (sampleSdk 1 4 10 0) 0 []
  ⟨(h.1 (CloseListenSocket (sampleSdk 1 4 10 3) 0 [ofInt 4]) (by simp)).2 rfl,
    (h2.1 (CloseListenSocket (sampleSdk 1 4 10 3) 0 []) (by simp)).1 rfl,
    h3.2.2.2.1 (by decide)⟩

theorem mem_messageLoop (n : Nat) (e : Event) :
    e ∈ (List.range n).flatMap (fun i => [Event.copyBuffer i, Event.release i]) ↔
      ∃ j, j < n ∧ (e = Event.copyBuffer j ∨ e = Event.release j) := by
  simp [List.mem_flatMap]

theorem messageLoop_split (n i : Nat) (hi : i < n) :
    ∃ pre post, (List.range n).flatMap (fun i => [Event.copyBuffer i, Event.release i]) =
        pre ++ Event.copyBuffer i :: Event.release i :: post ∧
      Event.release i ∉ pre ∧ Event.release i ∉ post := by
  induction n with
  | zero => omega
  | succ n ih =>
    rw [List.range_succ, List.flatMap_append]
    by_cases hlt : i < n
    · obtain ⟨pre, post, heq, hpre, hpost⟩ := ih hlt
      refine ⟨pre, post ++ [Event.copyBuffer n, Event.release n], ?_, hpre, ?_⟩
      · rw [heq]; simp
      · simp only [List.mem_append, not_or]
        refine ⟨hpost, ?_⟩
        simp
        omega
    · have hin : i = n := by omega
      subst hin
      refine ⟨(List.range i).flatMap (fun j => [Event.copyBuffer j, Event.release j]), [],
        ?_, ?_, by simp⟩
      · simp
      · rw [mem_messageLoop]
        rintro ⟨j, hj, h | h⟩
        · cases h
        · cases h
          omega

theorem receive_trace_split (n : Int) (c : SdkCall) (k : Int) (i : Nat) (hi : i < k.toNat) :
    ∃ pre post, [Event.newArray n, Event.call c] ++ messageLoopEvents k =
        pre ++ Event.copyBuffer i :: Event.release i :: post ∧
      Event.release i ∉ pre ∧ Event.release i ∉ post := by
  obtain ⟨pre, post, heq, hpre, hpost⟩ := messageLoop_split k.toNat i hi
  refine ⟨[Event.newArray n, Event.call c] ++ pre, post, ?_, ?_, hpost⟩
  · simp only [messageLoopEvents]
    rw [heq]
    simp
  · simp [hpre]

theorem release_mem_receive_trace (n : Int) (c : SdkCall) (k : Int) (i : Nat)
    (h : Event.release i ∈ [Event.newArray n, Event.call c] ++ messageLoopEvents k) :
    i < k.toNat := by
  simp only [messageLoopEvents, List.mem_append, List.mem_cons, List.mem_singleton,
    List.not_mem_nil, or_false] at h
  rcases h with (h | h) | h
  · cases h
  · cases h
  · rw [mem_messageLoop] at h
    obtain ⟨j, hj, h | h⟩ := h
    · cases h
    · cases h
      exact hj

theorem CopyBuffer_of_size (m : SteamNetworkingMessage_t) (h0 : 0 ≤ m.m_cbSize)
    (h1 : m.m_cbSize < 4294967296) :
    CopyBuffer m = JsValue.buffer (m.m_pData.take m.m_cbSize.toNat) := by
  have h : (m.m_cbSize % 4294967296).toNat = m.m_cbSize.toNat := by omega
  simp [CopyBuffer, h]

theorem length_take_payload (m : SteamNetworkingMessage_t) (h0 : 0 ≤ m.m_cbSize)
    (hmem : m.m_cbSize.toNat ≤ m.m_pData.length) :
    ((m.m_pData.take m.m_cbSize.toNat).length : Int) = m.m_cbSize := by
  rw [List.length_take, Nat.min_eq_left hmem]
  omega

theorem channelMessageObj_fields (m : SteamNetworkingMessage_t) :
    (channelMessageObj m).getField "data" = some (CopyBuffer m) ∧
    (channelMessageObj m).getField "size" = some (ofInt m.m_cbSize) ∧
    (channelMessageObj m).getField "channel" = some (ofInt m.m_nChannel) := by
  simp [channelMessageObj, getField, List.find?]

theorem connectionMessageObj_fields (m : SteamNetworkingMessage_t) :
    (connectionMessageObj m).getField "data" = some (CopyBuffer m) ∧
    (connectionMessageObj m).getField "size" = some (ofInt m.m_cbSize) ∧
    (connectionMessageObj m).getField "channel" = some (ofInt m.m_nChannel) ∧
    (connectionMessageObj m).getField "connection" =
      some (ofInt ((m.m_conn % 4294967296 : Nat) : Int)) := by
  simp [connectionMessageObj, getField, List.find?]

theorem messageArray_item (mkObj : SteamNetworkingMessage_t → JsValue)
    (pp : Nat → SteamNetworkingMessage_t) (k : Int) (i : Nat) (hi : i < k.toNat) :
    ((List.range k.toNat).map (fun j => mkObj (pp j)))[i]? = some (mkObj (pp i)) := by
  simp [List.getElem?_map, List.getElem?_range hi]

/-- C13: when the SDK hands back `k` messages to `receiveMessagesOnChannel` or
`receiveMessagesOnConnection`, the returned list has `k` elements in the SDK's
order.  Element `i` carries the channel (and, for a connection, the
connection) of message `i`; its `size` is the message's size field and its
`data` is a buffer with the first `size` bytes at the message's data pointer
(the size travelling as a `uint32_t`), bytes beyond the size being left out.
So when the size field is the length of the payload held at the data pointer,
`data` is exactly the payload and `size` its length.  In the trace every one
of the `k` messages is released exactly once, directly after its payload was
copied, and nothing else is released. -/
theorem received_messages_marshalled (sdk : Sdk σ) (st : σ) (info : List JsValue) :
    (∃ port : Int,
      (ReceiveMessagesOnChannel sdk st info).returnedItems.length =
        (sdk.ReceiveMessagesOnChannel st port (nMaxMessages info)).1.2.toNat ∧
      (∀ i : Nat, i < (sdk.ReceiveMessagesOnChannel st port (nMaxMessages info)).1.2.toNat →
        ∀ m : SteamNetworkingMessage_t,
        (sdk.ReceiveMessagesOnChannel st port (nMaxMessages info)).1.1 i = m →
        (∃ item, (ReceiveMessagesOnChannel sdk st info).returnedItems[i]? = some item ∧
          item.getField "channel" = some (ofInt m.m_nChannel) ∧
          item.getField "size" = some (ofInt m.m_cbSize) ∧
          item.getField "data" = some (JsValue.buffer
            (m.m_pData.take (m.m_cbSize % 4294967296).toNat)) ∧
          (0 ≤ m.m_cbSize → m.m_cbSize < 4294967296 →
            m.m_cbSize.toNat ≤ m.m_pData.length →
            item.getField "data" = some (JsValue.buffer
              (m.m_pData.take m.m_cbSize.toNat)) ∧
            item.getField "size" = some (ofInt
              ((m.m_pData.take m.m_cbSize.toNat).length : Int)))) ∧
        (∃ pre post, (ReceiveMessagesOnChannel sdk st info).trace =
            pre ++ Event.copyBuffer i :: Event.release i :: post ∧
          Event.release i ∉ pre ∧ Event.release i ∉ post)) ∧
      (∀ i : Nat, Event.release i ∈ (ReceiveMessagesOnChannel sdk st info).trace →
        i < (sdk.ReceiveMessagesOnChannel st port (nMaxMessages info)).1.2.toNat)) ∧
    ((arg info 0).IsUint32 = true →
      (ReceiveMessagesOnConnection sdk st info).returnedItems.length =
        (sdk.ReceiveMessagesOnConnection st (arg info 0).Uint32Value
          (nMaxMessages info)).1.2.toNat ∧
      (∀ i : Nat, i < (sdk.ReceiveMessagesOnConnection st (arg info 0).Uint32Value
          (nMaxMessages info)).1.2.toNat →
        ∀ m : SteamNetworkingMessage_t,
        (sdk.ReceiveMessagesOnConnection st (arg info 0).Uint32Value
          (nMaxMessages info)).1.1 i = m →
        (∃ item, (ReceiveMessagesOnConnection sdk st info).returnedItems[i]? = some item ∧
          item.getField "channel" = some (ofInt m.m_nChannel) ∧
          item.getField "connection" =
            some (ofInt ((m.m_conn % 4294967296 : Nat) : Int)) ∧
          item.getField "size" = some (ofInt m.m_cbSize) ∧
          item.getField "data" = some (JsValue.buffer
            (m.m_pData.take (m.m_cbSize % 4294967296).toNat)) ∧
          (0 ≤ m.m_cbSize → m.m_cbSize < 4294967296 →
            m.m_cbSize.toNat ≤ m.m_pData.length →
            item.getField "data" = some (JsValue.buffer
              (m.m_pData.take m.m_cbSize.toNat)) ∧
            item.getField "size" = some (ofInt
              ((m.m_pData.take m.m_cbSize.toNat).length : Int)))) ∧
        (∃ pre post, (ReceiveMessagesOnConnection sdk st info).trace =
            pre ++ Event.copyBuffer i :: Event.release i :: post ∧
          Event.release i ∉ pre ∧ Event.release i ∉ post)) ∧
      (∀ i : Nat, Event.release i ∈ (ReceiveMessagesOnConnection sdk st info).trace →
        i < (sdk.ReceiveMessagesOnConnection st (arg info 0).Uint32Value
          (nMaxMessages info)).1.2.toNat)) := by
  refine ⟨⟨if info.length ≥ 1 && (arg info 0).IsInt32 then (arg info 0).Int32Value else 0,
    ?_, ?_, ?_⟩, ?_⟩
  · simp [ReceiveMessagesOnChannel, Outcome.returnedItems, messageArray]
  · intro i hi m hm
    refine ⟨⟨channelMessageObj m, ?_, (channelMessageObj_fields m).2.2,
      (channelMessageObj_fields m).2.1, (channelMessageObj_fields m).1, ?_⟩, ?_⟩
    · simp only [ReceiveMessagesOnChannel, Outcome.returnedItems, messageArray]
      rw [← hm]
      exact messageArray_item _ _ _ i hi
    · intro h0 h1 hmem
      rw [(channelMessageObj_fields m).1, (channelMessageObj_fields m).2.1,
        CopyBuffer_of_size m h0 h1, length_take_payload m h0 hmem]
      exact ⟨rfl, rfl⟩
    · exact receive_trace_split _ _ _ i hi
  · intro i hmem
    exact release_mem_receive_trace _ _ _ i hmem
  · intro hu
    have hl := length_pos_of_IsUint32 info hu
    have hg : (info.length < 1 || !(arg info 0).IsUint32) = false := by
      simp only [hu, Bool.not_true, Bool.or_false, decide_eq_false_iff_not]
      exact hl
    refine ⟨?_, ?_, ?_⟩
    · simp [ReceiveMessagesOnConnection, hg, Outcome.returnedItems, messageArray]
    · intro i hi m hm
      refine ⟨⟨connectionMessageObj m, ?_, (connectionMessageObj_fields m).2.2.1,
        (connectionMessageObj_fields m).2.2.2, (connectionMessageObj_fields m).2.1,
        (connectionMessageObj_fields m).1, ?_⟩, ?_⟩
      · simp only [ReceiveMessagesOnConnection, hg, Outcome.returnedItems, messageArray]
        rw [← hm]
        exact messageArray_item _ _ _ i hi
      · intro h0 h1 hmem
        rw [(connectionMessageObj_fields m).1, (connectionMessageObj_fields m).2.1,
          CopyBuffer_of_size m h0 h1, length_take_payload m h0 hmem]
        exact ⟨rfl, rfl⟩
      · simp only [ReceiveMessagesOnConnection, hg]
        exact receive_trace_split _ _ _ i hi
    · intro i hmem
      simp only [ReceiveMessagesOnConnection, hg] at hmem
      exact release_mem_receive_trace _ _ _ i hmem

theorem received_messages_marshalled_witness :
    (ReceiveMessagesOnConnection batchSdk 0 [ofInt 4]).returnedItems.length = 2 ∧
    (∃ item, (ReceiveMessagesOnConnection batchSdk 0 [ofInt 4]).returnedItems[0]?
        = some item ∧
      item.getField "data" = some (JsValue.buffer [1, 2, 3]) ∧
      item.getField "size" = some (ofInt 3)) ∧
    (∃ item, (ReceiveMessagesOnConnection batchSdk 0 [ofInt 4]).returnedItems[1]?
        = some item ∧
      shortMessage.m_pData = [9, 8, 7, 6] ∧
      item.getField "data" = some (JsValue.buffer [9, 8]) ∧
      item.getField "size" = some (ofInt 2) ∧
      item.getField "connection" = some (ofInt 6)) :=
  have h := (received_messages_marshalled batchSdk 0 [ofInt 4]).2 rfl
  ⟨h.1,
    match (h.2.1 0 (by decide) sampleMessage rfl).1 with
    | ⟨item, hi, _, _, hsize, hdata, _⟩ => ⟨item, hi, hdata, hsize⟩,
    match (h.2.1 1 (by decide) shortMessage rfl).1 with
    | ⟨item, hi, _, hconn, hsize, hdata, _⟩ => ⟨item, hi, rfl, hdata, hsize, hconn⟩⟩

/-- C14: send-then-receive round trip.  A payload `b` (short enough for the
SDK's signed 32-bit size field) is sent with `sendMessageToConnection`; the SDK
delivers it, that is, the next SDK receive on the receiving connection hands
back a message whose size field is the size the send call was given and whose
data pointer leads to the bytes the send call was given (whatever lies in
memory after them).  Then the list `receiveMessagesOnConnection` returns next
contains a message whose `data` is exactly `b` and whose `size` is the length
of `b`. -/
theorem send_receive_round_trip (sdk : Sdk σ) (st : σ) (sendInfo recvInfo : List JsValue)
    (b : List Nat) (hsend : (arg sendInfo 0).IsUint32 = true)
    (hpayload : arg sendInfo 1 = JsValue.buffer b)
    (hrecv : (arg recvInfo 0).IsUint32 = true) (hlen : b.length < 2147483648)
    (hdeliver : ∃ j : Nat,
      (j : Int) < (sdk.ReceiveMessagesOnConnection
        (sdk.SendMessageToConnection st (arg sendInfo 0).Uint32Value b b.length
          (nSendFlags sendInfo)).2
        (arg recvInfo 0).Uint32Value (nMaxMessages recvInfo)).1.2 ∧
      ((sdk.ReceiveMessagesOnConnection
        (sdk.SendMessageToConnection st (arg sendInfo 0).Uint32Value b b.length
          (nSendFlags sendInfo)).2
        (arg recvInfo 0).Uint32Value (nMaxMessages recvInfo)).1.1 j).m_cbSize =
          (b.length : Int) ∧
      ((sdk.ReceiveMessagesOnConnection
        (sdk.SendMessageToConnection st (arg sendInfo 0).Uint32Value b b.length
          (nSendFlags sendInfo)).2
        (arg recvInfo 0).Uint32Value (nMaxMessages recvInfo)).1.1 j).m_pData.take
          b.length = b) :
    (SendMessageToConnection sdk st sendInfo).trace = [Event.call
      (SdkCall.SendMessageToConnection (arg sendInfo 0).Uint32Value b b.length
        (nSendFlags sendInfo))] ∧
    ∃ item ∈ (ReceiveMessagesOnConnection sdk
        (SendMessageToConnection sdk st sendInfo).state recvInfo).returnedItems,
      item.getField "data" = some (JsValue.buffer b) ∧
      item.getField "size" = some (ofInt (b.length : Int)) := by
  have hbuf : (arg sendInfo 1).HasInstance = true := by rw [hpayload]; rfl
  have hl := length_ge_two_of_HasInstance sendInfo hbuf
  have hcb : b.length % 4294967296 = b.length := Nat.mod_eq_of_lt (by omega)
  have hgs : (sendInfo.length < 2 || !(arg sendInfo 0).IsUint32) = false := by
    simp only [hsend, Bool.not_true, Bool.or_false, decide_eq_false_iff_not]
    exact hl
  have hlr := length_pos_of_IsUint32 recvInfo hrecv
  have hgr : (recvInfo.length < 1 || !(arg recvInfo 0).IsUint32) = false := by
    simp only [hrecv, Bool.not_true, Bool.or_false, decide_eq_false_iff_not]
    exact hlr
  have hstate : (SendMessageToConnection sdk st sendInfo).state =
      (sdk.SendMessageToConnection st (arg sendInfo 0).Uint32Value b b.length
        (nSendFlags sendInfo)).2 := by
    simp [SendMessageToConnection, hgs, hpayload, IsObject, HasInstance, Data, Length, hcb]
  refine ⟨?_, ?_⟩
  · simp [SendMessageToConnection, hgs, hpayload, IsObject, HasInstance, Data, Length, hcb]
  · obtain ⟨j, hj, hsize, hdata⟩ := hdeliver
    rw [hstate]
    have hjn : j < (sdk.ReceiveMessagesOnConnection
        (sdk.SendMessageToConnection st (arg sendInfo 0).Uint32Value b b.length
          (nSendFlags sendInfo)).2
        (arg recvInfo 0).Uint32Value (nMaxMessages recvInfo)).1.2.toNat := by omega
    refine ⟨connectionMessageObj ((sdk.ReceiveMessagesOnConnection
        (sdk.SendMessageToConnection st (arg sendInfo 0).Uint32Value b b.length
          (nSendFlags sendInfo)).2
        (arg recvInfo 0).Uint32Value (nMaxMessages recvInfo)).1.1 j), ?_, ?_⟩
    · apply List.getElem?_mem
      simp only [ReceiveMessagesOnConnection, hgr, Outcome.returnedItems, messageArray]
      exact messageArray_item _ _ _ j hjn
    · rw [(connectionMessageObj_fields _).1, (connectionMessageObj_fields _).2.1,
        CopyBuffer_of_size _ (by rw [hsize]; omega) (by rw [hsize]; omega), hsize]
      rw [Int.toNat_ofNat, hdata]
      exact ⟨rfl, rfl⟩

theorem send_receive_round_trip_witness :
    (SendMessageToConnection modelSdk modelStart
      [ofInt 5, JsValue.buffer [10, 20, 30]]).trace =
      [Event.call (SdkCall.SendMessageToConnection 5 [10, 20, 30] 3 8)] ∧
    ∃ item ∈ (ReceiveMessagesOnConnection modelSdk
        (SendMessageToConnection modelSdk modelStart
          [ofInt 5, JsValue.buffer [10, 20, 30]]).state [ofInt 5, ofInt 8]).returnedItems,
      item.getField "data" = some (JsValue.buffer [10, 20, 30]) ∧
      item.getField "size" = some (ofInt 3) :=
  send_receive_round_trip modelSdk modelStart [ofInt 5, JsValue.buffer [10, 20, 30]]
    [ofInt 5, ofInt 8] [10, 20, 30] rfl rfl rfl (by decide) ⟨0, by decide, rfl, rfl⟩

/-- C15: over an SDK in which a listen socket created under a valid handle
closes successfully once and is unknown afterwards, `createListenSocketIP`
returning a valid handle `h` followed by `closeListenSocket(h)` reports
success, and a second `closeListenSocket(h)` does not: the handle the binding
returned is the SDK's, it is passed back unchanged, and each close reports
what the SDK reports. -/
theorem create_then_close_listen_socket (sdk : Sdk σ) (st : σ) (info : List JsValue) (h : Nat)
    (hsdk : ∀ (s : σ) (a : SteamNetworkingIPAddr) (n : Int),
      (sdk.CreateListenSocketIP s a n).1 % 4294967296 ≠ k_HSteamListenSocket_Invalid →
      (sdk.CloseListenSocket (sdk.CreateListenSocketIP s a n).2
        ((sdk.CreateListenSocketIP s a n).1 % 4294967296)).1 = true ∧
      (sdk.CloseListenSocket
        (sdk.CloseListenSocket (sdk.CreateListenSocketIP s a n).2
          ((sdk.CreateListenSocketIP s a n).1 % 4294967296)).2
        ((sdk.CreateListenSocketIP s a n).1 % 4294967296)).1 = false)
    (hcreate : (CreateListenSocketIP sdk st info).completion =
      Completion.returned (ofInt (h : Int)))
    (hvalid : h ≠ k_HSteamListenSocket_Invalid) :
    (CloseListenSocket sdk (CreateListenSocketIP sdk st info).state
      [ofInt (h : Int)]).completion = Completion.returned (JsValue.boolean true) ∧
    (CloseListenSocket sdk
      (CloseListenSocket sdk (CreateListenSocketIP sdk st info).state [ofInt (h : Int)]).state
      [ofInt (h : Int)]).completion = Completion.returned (JsValue.boolean false) := by
  by_cases hg : (info.length < 1 || !(arg info 0).IsInt32) = true
  · simp [CreateListenSocketIP, hg, THROW_BAD_ARGS] at hcreate
  · have hc : (CreateListenSocketIP sdk st info).completion = Completion.returned (ofInt
        (((sdk.CreateListenSocketIP st
          (SteamNetworkingIPAddr.Clear.setPort (arg info 0).Int32Value) 0).1
            % 4294967296 : Nat) : Int)) := by
      simp only [CreateListenSocketIP, hg, k_HSteamListenSocket_Invalid, handleResult_mod]
      simp
    have hst : (CreateListenSocketIP sdk st info).state = (sdk.CreateListenSocketIP st
        (SteamNetworkingIPAddr.Clear.setPort (arg info 0).Int32Value) 0).2 := by
      simp [CreateListenSocketIP, hg]
    rw [hc] at hcreate
    have hh : (sdk.CreateListenSocketIP st
        (SteamNetworkingIPAddr.Clear.setPort (arg info 0).Int32Value) 0).1 % 4294967296 = h := by
      have := ofInt_injective (Completion.returned.inj hcreate)
      exact_mod_cast this
    have hlt : h < 4294967296 := by rw [← hh]; exact Nat.mod_lt _ (by norm_num)
    have hu : (ofInt (h : Int)).IsUint32 = true := (IsUint32_ofInt _).2 ⟨by omega, by omega⟩
    have hv : (ofInt (h : Int)).Uint32Value = h := by
      have := Uint32Value_ofInt (h : Int) (by omega) (by omega)
      exact_mod_cast this
    have hcon := hsdk st (SteamNetworkingIPAddr.Clear.setPort (arg info 0).Int32Value) 0
      (by rw [hh]; exact hvalid)
    rw [hh] at hcon
    rw [hst]
    have ha : arg [ofInt (h : Int)] 0 = ofInt (h : Int) := rfl
    constructor
    · simp [CloseListenSocket, ha, hu, hv, hcon.1]
    · simp [CloseListenSocket, ha, hu, hv, hcon.2]

theorem create_then_close_listen_socket_witness :
    (CreateListenSocketIP modelSdk modelStart [ofInt 27015]).completion =
      Completion.returned (ofInt 1) ∧
    (CloseListenSocket modelSdk (CreateListenSocketIP modelSdk modelStart [ofInt 27015]).state
      [ofInt 1]).completion = Completion.returned (JsValue.boolean true) ∧
    (CloseListenSocket modelSdk
      (CloseListenSocket modelSdk
        (CreateListenSocketIP modelSdk modelStart [ofInt 27015]).state [ofInt 1]).state
      [ofInt 1]).completion = Completion.returned (JsValue.boolean false) :=
  have h := create_then_close_listen_socket modelSdk modelStart [ofInt 27015] 1
    (by intro s a n _; simp [modelSdk]) rfl (by decide)
  ⟨rfl, h.1, h.2⟩

end api

end greenworks
